import Mathlib

/-!
Verification development for the nba-realtime-service python bridge.

This file gives a shallow embedding, in Lean 4, of the pure logic of the
python bridge (`src/python-bridge/app`): the game-id mapper
(`utils/game_id_mapper.py`), the ETag utilities (`utils/etag.py`), the
status classifier and the response transformers
(`services/transformers.py`), the Redis lookup wrappers
(`utils/redis_client.py`) and the conditional-request decision made by
the HTTP endpoints (`endpoints/games.py`, `endpoints/schedule.py`).

Machine integers are modelled as `Nat` with explicit reduction modulo
`2 ^ 32` where the hash algorithms require 32-bit wraparound; fallible
Python code is modelled with `Except`; Python `None` is modelled with
`Option` or with a dedicated JSON `null` value.  All definitions are
executable and kernel-reducible so that concrete witnesses can be
checked by `decide`.
-/

set_option maxRecDepth 100000

namespace NBA

/-! ### 32-bit words and byte lists -/

/-- Modulus for 32-bit arithmetic. -/
def M32 : Nat := 4294967296

/-- Rotate a 32-bit word (a `Nat` below `M32`) left by `n` bits, `0 < n < 32`. -/
def rotl32 (x n : Nat) : Nat := ((x <<< n) % M32) + (x >>> (32 - n))

/-- Rotate a 32-bit word right by `n` bits, `0 < n < 32`. -/
def rotr32 (x n : Nat) : Nat := (x >>> n) + ((x <<< (32 - n)) % M32)

/-- Big-endian 8-byte encoding of a 64-bit length value. -/
def toBE64 (w : Nat) : List Nat :=
  [w >>> 56 % 256, w >>> 48 % 256, w >>> 40 % 256, w >>> 32 % 256,
   w >>> 24 % 256, w >>> 16 % 256, w >>> 8 % 256, w % 256]

/-- Merkle–Damgård padding shared by SHA-1 and SHA-256: append `0x80`,
then zero bytes up to 56 mod 64, then the bit length as 8 big-endian bytes. -/
def padMsg (msg : List Nat) : List Nat :=
  let len := msg.length
  let padLen := (119 - len % 64) % 64
  msg ++ [128] ++ List.replicate padLen 0 ++ toBE64 (len * 8)

/-- Group a byte list into big-endian 32-bit words (drops a trailing
incomplete group; padded messages never have one). -/
def bytesToWords : List Nat → List Nat
  | a :: b :: c :: d :: rest => (a * 16777216 + b * 65536 + c * 256 + d) :: bytesToWords rest
  | _ => []

/-- Split a 32-bit word into its four big-endian bytes. -/
def wordBytes (w : Nat) : List Nat := [w >>> 24 % 256, w >>> 16 % 256, w >>> 8 % 256, w % 256]

/-! ### SHA-1 (used by Python `uuid.uuid5`) -/

/-- Extend the 16-word schedule by `n` further SHA-1 words; the schedule is
kept in reverse order so that the most recent words are at the head. -/
def sha1ExtendRev : Nat → List Nat → List Nat
  | 0, acc => acc
  | n + 1, acc =>
      sha1ExtendRev n
        (rotl32 (Nat.xor (Nat.xor (acc.getD 2 0) (acc.getD 7 0)) (Nat.xor (acc.getD 13 0) (acc.getD 15 0))) 1 :: acc)

/-- SHA-1 round function, selected by the round index. -/
def sha1F (i b c d : Nat) : Nat :=
  if i < 20 then Nat.lor (Nat.land b c) (Nat.land (4294967295 - b) d)
  else if i < 40 then Nat.xor (Nat.xor b c) d
  else if i < 60 then Nat.lor (Nat.lor (Nat.land b c) (Nat.land b d)) (Nat.land c d)
  else Nat.xor (Nat.xor b c) d

/-- SHA-1 round constants, selected by the round index. -/
def sha1K (i : Nat) : Nat :=
  if i < 20 then 1518500249 else if i < 40 then 1859775393
  else if i < 60 then 2400959708 else 3395469782

/-- One SHA-1 round on the five-word state, fed the round index and word. -/
def sha1Round (st : Nat × Nat × Nat × Nat × Nat) (iw : Nat × Nat) : Nat × Nat × Nat × Nat × Nat :=
  let (a, b, c, d, e) := st
  let t := (rotl32 a 5 + sha1F iw.1 b c d + e + sha1K iw.1 + iw.2) % M32
  (t, a, rotl32 b 30, c, d)

/-- SHA-1 compression of one 16-word block into the chaining state. -/
def sha1Compress (h : Nat × Nat × Nat × Nat × Nat) (ws : List Nat) : Nat × Nat × Nat × Nat × Nat :=
  let full := (sha1ExtendRev 64 ws.reverse).reverse
  let (a, b, c, d, e) := ((List.range 80).zip full).foldl sha1Round h
  ((h.1 + a) % M32, (h.2.1 + b) % M32, (h.2.2.1 + c) % M32, (h.2.2.2.1 + d) % M32, (h.2.2.2.2 + e) % M32)

/-- Fold SHA-1 compression over a padded word stream, 16 words at a time. -/
def sha1Go (h : Nat × Nat × Nat × Nat × Nat) : List Nat → Nat × Nat × Nat × Nat × Nat
  | w0 :: w1 :: w2 :: w3 :: w4 :: w5 :: w6 :: w7 :: w8 :: w9 :: w10 :: w11 :: w12 :: w13 :: w14 :: w15 :: rest =>
      sha1Go (sha1Compress h [w0, w1, w2, w3, w4, w5, w6, w7, w8, w9, w10, w11, w12, w13, w14, w15]) rest
  | _ => h

/-- SHA-1 digest of a byte list, as its list of 20 digest bytes. -/
def sha1 (msg : List Nat) : List Nat :=
  let (a, b, c, d, e) :=
    sha1Go (1732584193, 4023233417, 2562383102, 271733878, 3285377520) (bytesToWords (padMsg msg))
  [a, b, c, d, e].flatMap wordBytes

/-! ### SHA-256 (used by `calculate_etag`) -/

/-- SHA-256 round constants. -/
def sha256K : List Nat :=
  [1116352408, 1899447441, 3049323471, 3921009573, 961987163, 1508970993, 2453635748, 2870763221,
   3624381080, 310598401, 607225278, 1426881987, 1925078388, 2162078206, 2614888103, 3248222580,
   3835390401, 4022224774, 264347078, 604807628, 770255983, 1249150122, 1555081692, 1996064986,
   2554220882, 2821834349, 2952996808, 3210313671, 3336571891, 3584528711, 113926993, 338241895,
   666307205, 773529912, 1294757372, 1396182291, 1695183700, 1986661051, 2177026350, 2456956037,
   2730485921, 2820302411, 3259730800, 3345764771, 3516065817, 3600352804, 4094571909, 275423344,
   430227734, 506948616, 659060556, 883997877, 958139571, 1322822218, 1537002063, 1747873779,
   1955562222, 2024104815, 2227730452, 2361852424, 2428436474, 2756734187, 3204031479, 3329325298]

/-- SHA-256 message-schedule sigma-0. -/
def sha256s0 (x : Nat) : Nat := Nat.xor (Nat.xor (rotr32 x 7) (rotr32 x 18)) (x >>> 3)

/-- SHA-256 message-schedule sigma-1. -/
def sha256s1 (x : Nat) : Nat := Nat.xor (Nat.xor (rotr32 x 17) (rotr32 x 19)) (x >>> 10)

/-- SHA-256 compression Sigma-0. -/
def sha256S0 (x : Nat) : Nat := Nat.xor (Nat.xor (rotr32 x 2) (rotr32 x 13)) (rotr32 x 22)

/-- SHA-256 compression Sigma-1. -/
def sha256S1 (x : Nat) : Nat := Nat.xor (Nat.xor (rotr32 x 6) (rotr32 x 11)) (rotr32 x 25)

/-- Extend the 16-word schedule by `n` further SHA-256 words (reversed order). -/
def sha256ExtendRev : Nat → List Nat → List Nat
  | 0, acc => acc
  | n + 1, acc =>
      sha256ExtendRev n
        ((sha256s1 (acc.getD 1 0) + acc.getD 6 0 + sha256s0 (acc.getD 14 0) + acc.getD 15 0) % M32 :: acc)

/-- The eight-word SHA-256 state. -/
abbrev Sha256St := Nat × Nat × Nat × Nat × Nat × Nat × Nat × Nat

/-- One SHA-256 round, fed the round constant and schedule word. -/
def sha256Round (st : Sha256St) (kw : Nat × Nat) : Sha256St :=
  let (a, b, c, d, e, f, g, h) := st
  let t1 := (h + sha256S1 e + Nat.xor (Nat.land e f) (Nat.land (4294967295 - e) g) + kw.1 + kw.2) % M32
  let t2 := (sha256S0 a + Nat.xor (Nat.xor (Nat.land a b) (Nat.land a c)) (Nat.land b c)) % M32
  ((t1 + t2) % M32, a, b, c, (d + t1) % M32, e, f, g)

/-- SHA-256 compression of one 16-word block into the chaining state. -/
def sha256Compress (h : Sha256St) (ws : List Nat) : Sha256St :=
  let full := (sha256ExtendRev 48 ws.reverse).reverse
  let (a, b, c, d, e, f, g, hh) := (sha256K.zip full).foldl sha256Round h
  let (h0, h1, h2, h3, h4, h5, h6, h7) := h
  ((h0 + a) % M32, (h1 + b) % M32, (h2 + c) % M32, (h3 + d) % M32,
   (h4 + e) % M32, (h5 + f) % M32, (h6 + g) % M32, (h7 + hh) % M32)

/-- Fold SHA-256 compression over a padded word stream, 16 words at a time. -/
def sha256Go (h : Sha256St) : List Nat → Sha256St
  | w0 :: w1 :: w2 :: w3 :: w4 :: w5 :: w6 :: w7 :: w8 :: w9 :: w10 :: w11 :: w12 :: w13 :: w14 :: w15 :: rest =>
      sha256Go (sha256Compress h [w0, w1, w2, w3, w4, w5, w6, w7, w8, w9, w10, w11, w12, w13, w14, w15]) rest
  | _ => h

/-- SHA-256 digest of a byte list, as its list of 32 digest bytes. -/
def sha256 (msg : List Nat) : List Nat :=
  let (a, b, c, d, e, f, g, h) :=
    sha256Go (1779033703, 3144134277, 1013904242, 2773480762, 1359893119, 2600822924, 528734635, 1541459225)
      (bytesToWords (padMsg msg))
  [a, b, c, d, e, f, g, h].flatMap wordBytes

/-! ### Hex strings and UTF-8 -/

/-- Lower-case hexadecimal digit for a value below 16. -/
def hexChar (n : Nat) : Char := if n < 10 then Char.ofNat (48 + n) else Char.ofNat (87 + n)

/-- Lower-case hex rendering of a byte list (two digits per byte), as used
by Python `hashlib.sha256(...).hexdigest()` and by `str(uuid)`. -/
def bytesToHex (bs : List Nat) : String :=
  String.mk (bs.flatMap fun b => [hexChar (b / 16 % 16), hexChar (b % 16)])

/-- UTF-8 encoding of one Unicode scalar value, by code point. -/
def utf8EncodeChar (c : Char) : List Nat :=
  let n := c.toNat
  if n < 128 then [n]
  else if n < 2048 then [192 + n / 64, 128 + n % 64]
  else if n < 65536 then [224 + n / 4096, 128 + n / 64 % 64, 128 + n % 64]
  else [240 + n / 262144, 128 + n / 4096 % 64, 128 + n / 64 % 64, 128 + n % 64]

/-- UTF-8 encoding of a string, as a byte list (Python `s.encode()`). -/
def utf8Encode (s : String) : List Nat := s.toList.flatMap utf8EncodeChar

/-! ### Python string primitives used by the bridge -/

/-- Characters stripped by Python `str.strip()` with no argument: exactly the
code points CPython treats as whitespace. -/
def pyIsSpaceChar (c : Char) : Bool :=
  let n := c.toNat
  (9 ≤ n && n ≤ 13) || (28 ≤ n && n ≤ 32) || n == 133 || n == 160 || n == 5760 ||
  (8192 ≤ n && n ≤ 8202) || n == 8232 || n == 8233 || n == 8239 || n == 8287 || n == 12288

/-- Python `str.strip()`: remove leading and trailing whitespace characters. -/
def pyStrip (s : String) : String :=
  String.mk (((s.toList.dropWhile pyIsSpaceChar).reverse.dropWhile pyIsSpaceChar).reverse)

/-- The complete code-point ranges accepted by CPython `str.isdigit`:
every Unicode character of numeric type Decimal or Digit, enumerated
from CPython 3.11's Unicode data over the whole code space (81 ranges,
788 characters, from the ASCII digits through the Nd blocks of the
world's scripts to the mathematical and segmented digits). -/
def pyDigitRanges : List (Nat × Nat) :=
  [(48, 57), (178, 179), (185, 185), (1632, 1641), (1776, 1785), (1984, 1993), (2406, 2415),
   (2534, 2543), (2662, 2671), (2790, 2799), (2918, 2927), (3046, 3055), (3174, 3183),
   (3302, 3311), (3430, 3439), (3558, 3567), (3664, 3673), (3792, 3801), (3872, 3881),
   (4160, 4169), (4240, 4249), (4969, 4977), (6112, 6121), (6160, 6169), (6470, 6479),
   (6608, 6618), (6784, 6793), (6800, 6809), (6992, 7001), (7088, 7097), (7232, 7241),
   (7248, 7257), (8304, 8304), (8308, 8313), (8320, 8329), (9312, 9320), (9332, 9340),
   (9352, 9360), (9450, 9450), (9461, 9469), (9471, 9471), (10102, 10110), (10112, 10120),
   (10122, 10130), (42528, 42537), (43216, 43225), (43264, 43273), (43472, 43481),
   (43504, 43513), (43600, 43609), (44016, 44025), (65296, 65305), (66720, 66729),
   (68160, 68163), (68912, 68921), (69216, 69224), (69714, 69722), (69734, 69743),
   (69872, 69881), (69942, 69951), (70096, 70105), (70384, 70393), (70736, 70745),
   (70864, 70873), (71248, 71257), (71360, 71369), (71472, 71481), (71904, 71913),
   (72016, 72025), (72784, 72793), (73040, 73049), (73120, 73129), (92768, 92777),
   (92864, 92873), (93008, 93017), (120782, 120831), (123200, 123209), (123632, 123641),
   (125264, 125273), (127232, 127242), (130032, 130041)]

/-- Python `str.isdigit` on one character: membership in the table above.
A character is accepted exactly when CPython accepts it. -/
def pyIsDigitChar (c : Char) : Bool :=
  pyDigitRanges.any fun r => r.1 ≤ c.toNat && c.toNat ≤ r.2

/-- ASCII decimal digit, used on the specification side of claim C2. -/
def isAsciiDigitChar (c : Char) : Bool := 48 ≤ c.toNat && c.toNat ≤ 57

/-- Python `str.lower()` restricted to ASCII case folding; the status texts
matched by the classifier are ASCII patterns. -/
def pyLowerChar (c : Char) : Char :=
  if 65 ≤ c.toNat && c.toNat ≤ 90 then Char.ofNat (c.toNat + 32) else c

/-- Lower-cased character list of a string. -/
def pyLower (s : String) : List Char := s.toList.map pyLowerChar

/-- Does `pat` occur at the head of `l`? -/
def charsHaveStart : List Char → List Char → Bool
  | [], _ => true
  | _ :: _, [] => false
  | p :: ps, x :: xs => p == x && charsHaveStart ps xs

/-- Python substring containment `pat in s` on character lists. -/
def charsContain (pat : List Char) : List Char → Bool
  | [] => charsHaveStart pat []
  | x :: xs => charsHaveStart pat (x :: xs) || charsContain pat xs

/-- Python `pat in s` for strings. -/
def strContains (s pat : String) : Bool := charsContain pat.toList s.toList

/-! ### Errors raised by the modelled Python code -/

/-- Python exceptions that the modelled code can raise, plus the FastAPI
`HTTPException` carrying an HTTP status code. -/
inductive PyErr where
  | valueError (msg : String)
  | typeError
  | keyError
  | indexError
  | httpException (status : Nat) (detail : String)
  deriving DecidableEq, Repr

/-- Decidable equality for `Except`, so that concrete runs of the fallible
modelled code can be checked by `decide`. -/
instance {ε α : Type} [DecidableEq ε] [DecidableEq α] : DecidableEq (Except ε α) := fun x y =>
  match x, y with
  | .ok a, .ok b =>
      if h : a = b then isTrue (by rw [h]) else isFalse (fun hc => h (Except.ok.inj hc))
  | .error a, .error b =>
      if h : a = b then isTrue (by rw [h]) else isFalse (fun hc => h (Except.error.inj hc))
  | .ok _, .error _ => isFalse (fun hc => Except.noConfusion hc)
  | .error _, .ok _ => isFalse (fun hc => Except.noConfusion hc)

/-! ### UUID version 5 and the game-id mapper (`utils/game_id_mapper.py`) -/

/-- Byte list of the fixed namespace constant
`6ba7b810-9dad-11d1-80b4-00c04fd430c8` (`NBA_GAME_ID_NAMESPACE`). -/
def NBA_GAME_ID_NAMESPACE : List Nat :=
  [107, 167, 184, 16, 157, 173, 17, 209, 128, 180, 0, 192, 79, 212, 48, 200]

/-- Set the UUID version (high nibble of byte 6) to 5 and the variant
(top bits of byte 8) to RFC 4122, as `uuid.UUID(bytes=..., version=5)` does. -/
def setVersion5 (bs : List Nat) : List Nat :=
  bs.mapIdx fun i b =>
    if i == 6 then b % 16 + 80 else if i == 8 then b % 64 + 128 else b

/-- Render 16 UUID octets in the canonical 8-4-4-4-12 lower-case hex form. -/
def formatUuidBytes (bs : List Nat) : String :=
  bytesToHex (bs.take 4) ++ "-" ++ bytesToHex ((bs.drop 4).take 2) ++ "-" ++
  bytesToHex ((bs.drop 6).take 2) ++ "-" ++ bytesToHex ((bs.drop 8).take 2) ++ "-" ++
  bytesToHex (bs.drop 10)

/-- RFC 4122 name-based UUID version 5: the first 16 bytes of the SHA-1 of
the namespace bytes followed by the UTF-8 name, with version and variant
bits forced, rendered canonically (Python `uuid.uuid5(ns, name)`). -/
def uuidV5 (ns : List Nat) (name : String) : String :=
  formatUuidBytes (setVersion5 ((sha1 (ns ++ utf8Encode name)).take 16))

/-- Embeds `nba_game_id_to_uuid` from `utils/game_id_mapper.py`: strip the
input, raise `ValueError` when the stripped form is empty, and otherwise
return the UUID v5 of the stripped id under `NBA_GAME_ID_NAMESPACE`. -/
def nba_game_id_to_uuid (nba_game_id : String) : Except PyErr String :=
  let normalized_id := pyStrip nba_game_id
  if normalized_id = "" then
    Except.error (PyErr.valueError "NBA game ID cannot be empty")
  else
    Except.ok (uuidV5 NBA_GAME_ID_NAMESPACE normalized_id)

/-- Embeds `is_nba_game_id` from `utils/game_id_mapper.py`:
`bool(game_id and game_id.isdigit() and len(game_id) == 10)`. -/
def is_nba_game_id (game_id : String) : Bool :=
  game_id ≠ "" && game_id.toList.all pyIsDigitChar && game_id.toList.length == 10

/-! ### JSON values

Python dictionaries, lists and scalars, as produced by `json.loads` and
consumed by the transformers.  Arrays and key-value lists are separate
mutual inductives (rather than nested `List`s) so that every function on
them is structurally recursive and kernel-reducible.  Objects keep their
key insertion order, as Python dictionaries do. -/

mutual

inductive Json where
  | null
  | bool (b : Bool)
  | int (n : Int)
  | str (s : String)
  | arr (xs : JsonArr)
  | obj (kvs : JsonObj)
  deriving DecidableEq

inductive JsonArr where
  | nil
  | cons (hd : Json) (tl : JsonArr)
  deriving DecidableEq

inductive JsonObj where
  | nil
  | cons (k : String) (v : Json) (tl : JsonObj)
  deriving DecidableEq

end

/-- Key-value pairs of an object, as a `List`. -/
def JsonObj.toList : JsonObj → List (String × Json)
  | .nil => []
  | .cons k v t => (k, v) :: t.toList

/-- Rebuild an object from a list of key-value pairs. -/
def JsonObj.ofList : List (String × Json) → JsonObj
  | [] => .nil
  | (k, v) :: t => .cons k v (JsonObj.ofList t)

/-- Keys of an object, in insertion order. -/
def JsonObj.keys : JsonObj → List String
  | .nil => []
  | .cons k _ t => k :: t.keys

/-- Elements of an array, as a `List`. -/
def JsonArr.toList : JsonArr → List Json
  | .nil => []
  | .cons h t => h :: t.toList

/-- Build an array from a list of values. -/
def JsonArr.ofList : List Json → JsonArr
  | [] => .nil
  | h :: t => .cons h (JsonArr.ofList t)

/-- Python dictionary lookup: the value at a key, if present. -/
def JsonObj.lookup : JsonObj → String → Option Json
  | .nil, _ => none
  | .cons k v t, key => if k = key then some v else t.lookup key

/-- Python `key in dict`. -/
def JsonObj.hasKey (kvs : JsonObj) (key : String) : Bool := (kvs.lookup key).isSome

/-- Python truthiness of a JSON value: `None`, `False`, `0`, `""`, `[]`
and an empty dict are falsy, everything else is truthy. -/
def pyTruthy : Json → Bool
  | .null => false
  | .bool b => b
  | .int n => n ≠ 0
  | .str s => s ≠ ""
  | .arr .nil => false
  | .arr _ => true
  | .obj .nil => false
  | .obj _ => true

/-- Decimal rendering of an integer, as Python `str(int)` writes it. -/
def intDec (n : Int) : String :=
  if n < 0 then "-" ++ Nat.repr n.natAbs else Nat.repr n.natAbs

mutual

/-- Python `repr(value)` on JSON values: scalars as Python writes them,
strings single-quoted (the exotic quote-selection rules of `repr` for
strings containing quotes are not modelled — no claim depends on them). -/
def pyRepr : Json → String
  | .null => "None"
  | .bool true => "True"
  | .bool false => "False"
  | .int n => intDec n
  | .str s => "'" ++ s ++ "'"
  | .arr xs => "[" ++ pyReprArr xs ++ "]"
  | .obj kvs => "\x7b" ++ pyReprObj kvs ++ "\x7d"

/-- Comma-joined `repr`s of array elements. -/
def pyReprArr : JsonArr → String
  | .nil => ""
  | .cons h .nil => pyRepr h
  | .cons h t => pyRepr h ++ ", " ++ pyReprArr t

/-- Comma-joined `repr`s of object entries. -/
def pyReprObj : JsonObj → String
  | .nil => ""
  | .cons k v .nil => "'" ++ k ++ "': " ++ pyRepr v
  | .cons k v t => "'" ++ k ++ "': " ++ pyRepr v ++ ", " ++ pyReprObj t

end

/-- Python `str(value)`: like `repr` except that a top-level string is
rendered as itself. -/
def pyStr : Json → String
  | .str s => s
  | j => pyRepr j

/-! ### Canonical JSON serialization (`json.dumps(..., sort_keys=True)`) -/

/-- Four lower-case hex digits of a value below 65536, for escapes. -/
def hex4 (n : Nat) : List Char :=
  [hexChar (n / 4096 % 16), hexChar (n / 256 % 16), hexChar (n / 16 % 16), hexChar (n % 16)]

/-- JSON string escaping as CPython `json.dumps` performs it with the
default `ensure_ascii=True`: escape the quote, the backslash and the named
control characters, render other control characters and every non-ASCII
character as `\uXXXX` (a surrogate pair above U+FFFF). -/
def jsonEscapeChar (c : Char) : List Char :=
  let n := c.toNat
  if n == 34 then ['\\', '"']
  else if n == 92 then ['\\', '\\']
  else if n == 8 then ['\\', 'b']
  else if n == 9 then ['\\', 't']
  else if n == 10 then ['\\', 'n']
  else if n == 12 then ['\\', 'f']
  else if n == 13 then ['\\', 'r']
  else if n < 32 then '\\' :: 'u' :: hex4 n
  else if n < 127 then [c]
  else if n < 65536 then '\\' :: 'u' :: hex4 n
  else
    '\\' :: 'u' :: hex4 (55296 + (n - 65536) / 1024) ++ '\\' :: 'u' :: hex4 (56320 + (n - 65536) % 1024)

/-- A JSON string literal: escaped content between double quotes. -/
def jsonQuote (s : String) : String :=
  String.mk ('"' :: s.toList.flatMap jsonEscapeChar ++ ['"'])

mutual

/-- Serialize a JSON value exactly as `json.dumps` does with its default
separators, writing object keys in their current order. -/
def dumpsJson : Json → String
  | .null => "null"
  | .bool true => "true"
  | .bool false => "false"
  | .int n => intDec n
  | .str s => jsonQuote s
  | .arr xs => "[" ++ dumpsArr xs ++ "]"
  | .obj kvs => "\x7b" ++ dumpsObj kvs ++ "\x7d"

/-- Array elements joined by the default item separator. -/
def dumpsArr : JsonArr → String
  | .nil => ""
  | .cons h .nil => dumpsJson h
  | .cons h t => dumpsJson h ++ ", " ++ dumpsArr t

/-- Object entries joined by the default separators. -/
def dumpsObj : JsonObj → String
  | .nil => ""
  | .cons k v .nil => jsonQuote k ++ ": " ++ dumpsJson v
  | .cons k v t => jsonQuote k ++ ": " ++ dumpsJson v ++ ", " ++ dumpsObj t

end

/-- Code points of a string, for lexicographic comparison. -/
def strCodes (s : String) : List Nat := s.toList.map Char.toNat

/-- Lexicographic order on code-point lists; Python compares strings this way. -/
def natListLe : List Nat → List Nat → Bool
  | [], _ => true
  | _ :: _, [] => false
  | a :: as_, b :: bs => a < b || (a == b && natListLe as_ bs)

/-- Python string comparison, as `sorted` uses on keys. -/
def strLeB (a b : String) : Bool := natListLe (strCodes a) (strCodes b)

/-- Order on key-value pairs by key only, as Python `sorted(dict.items())`
orders keys. -/
def keyLE (p q : String × Json) : Prop := strLeB p.1 q.1 = true

instance : DecidableRel keyLE := fun p q => by
  unfold keyLE; infer_instance

/-- Sort the entries of one object level by key (Python `sort_keys=True`). -/
def sortObjPairs (kvs : JsonObj) : JsonObj :=
  JsonObj.ofList (List.insertionSort keyLE kvs.toList)

mutual

/-- Recursively sort every object level of a value by key.  Serializing
the result in order is exactly what `json.dumps(..., sort_keys=True)`
writes, since Python sorts each dictionary's keys as it serializes it. -/
def sortJson : Json → Json
  | .arr xs => .arr (sortArr xs)
  | .obj kvs => .obj (sortObjPairs (sortVals kvs))
  | j => j

/-- Sort each element of an array. -/
def sortArr : JsonArr → JsonArr
  | .nil => .nil
  | .cons h t => .cons (sortJson h) (sortArr t)

/-- Sort each value of an object, keeping the key order. -/
def sortVals : JsonObj → JsonObj
  | .nil => .nil
  | .cons k v t => .cons k (sortJson v) (sortVals t)

end

/-- Canonical serialization used by the ETag: `json.dumps(data, sort_keys=True)`. -/
def pyJsonDumpsSorted (data : Json) : String := dumpsJson (sortJson data)

/-- Hex digest character list of the SHA-256 of a byte list. -/
def sha256HexChars (msg : List Nat) : List Char :=
  (sha256 msg).flatMap fun b => [hexChar (b / 16 % 16), hexChar (b % 16)]

/-- Embeds `calculate_etag` from `utils/etag.py`: the double-quoted first
16 hex characters of the SHA-256 of the UTF-8 bytes of
`json.dumps(data, sort_keys=True)`. -/
def calculate_etag (data : Json) : String :=
  String.mk ('"' :: (sha256HexChars (utf8Encode (pyJsonDumpsSorted data))).take 16 ++ ['"'])

/-! ### Python container operations on JSON values -/

/-- Python `key in value` for a string key: key membership for a dict,
element equality for a list (a string compares equal only to an equal
string), substring containment for a string, and a `TypeError` for the
non-container scalars. -/
def pyInJson (key : String) : Json → Except PyErr Bool
  | .obj kvs => .ok (kvs.hasKey key)
  | .arr xs => .ok (xs.toList.any fun j => j == .str key)
  | .str s => .ok (strContains s key)
  | _ => .error .typeError

/-- Python `value[key]` for a string key: dict lookup (`KeyError` when the
key is absent), `TypeError` for every non-dict value, whose indices would
have to be integers. -/
def pySubscript (j : Json) (key : String) : Except PyErr Json :=
  match j with
  | .obj kvs =>
      match kvs.lookup key with
      | some v => .ok v
      | none => .error .keyError
  | _ => .error .typeError

/-- Python `value.get(key, default)` on a dict; `TypeError` otherwise
(modelling the `AttributeError` for a missing method as a `TypeError`
would mislabel the exception kind, but no claim distinguishes them, and
the endpoints catch every `Exception` alike). -/
def pyGet (j : Json) (key : String) (dflt : Json) : Except PyErr Json :=
  match j with
  | .obj kvs =>
      match kvs.lookup key with
      | some v => .ok v
      | none => .ok dflt
  | _ => .error .typeError

/-- Python iteration `for x in value`: the elements of a list, the
characters of a string (each a one-character string), the keys of a dict,
and a `TypeError` for the non-iterable scalars. -/
def pyIterList : Json → Except PyErr (List Json)
  | .arr xs => .ok xs.toList
  | .str s => .ok (s.toList.map fun c => .str (String.mk [c]))
  | .obj kvs => .ok (kvs.keys.map .str)
  | _ => .error .typeError

/-- Python `list(value.keys())`: the key list of a dict; every other
value lacks the method, raising an `AttributeError` (modelled, like the
other missing-method errors, as `typeError` — no claim distinguishes
the two, and the endpoints catch every `Exception` alike). -/
def pyKeysList : Json → Except PyErr (List String)
  | .obj kvs => .ok kvs.keys
  | _ => .error .typeError

/-- Python `len(value)` for the sized values, `TypeError` otherwise. -/
def pyLen : Json → Except PyErr Nat
  | .arr xs => .ok xs.toList.length
  | .str s => .ok s.toList.length
  | .obj kvs => .ok kvs.toList.length
  | _ => .error .typeError

/-- Python `value[i]` for a non-negative integer index: list element or
one-character string, `IndexError` out of range, `KeyError` on a dict
(the modelled dicts have only string keys) and `TypeError` otherwise. -/
def pyIndex (j : Json) (i : Nat) : Except PyErr Json :=
  match j with
  | .arr xs =>
      match xs.toList.get? i with
      | some v => .ok v
      | none => .error .indexError
  | .str s =>
      match s.toList.get? i with
      | some c => .ok (.str (String.mk [c]))
      | none => .error .indexError
  | .obj _ => .error .keyError
  | _ => .error .typeError

/-- Python dict assignment `d[k] = v`: replace the value in place when the
key exists, append the pair otherwise. -/
def pyDictSet : JsonObj → String → Json → JsonObj
  | .nil, k, v => .cons k v .nil
  | .cons k0 v0 t, k, v => if k0 = k then .cons k0 v t else .cons k0 v0 (pyDictSet t k v)

/-- Fold `pyDictSet` over a pair list, as a `dict(**base, **extra)` merge
or a sequence of assignments does. -/
def pyDictExtend (base : JsonObj) (extra : List (String × Json)) : JsonObj :=
  extra.foldl (fun b kv => pyDictSet b kv.1 kv.2) base

/-! ### Status classification (`_map_game_status` in `services/transformers.py`) -/

/-- Case-insensitive substring test used by the classifier: does the
lower-cased text contain the (already lower-case) pattern? -/
def textHas (pat : String) (lowered : List Char) : Bool :=
  charsContain pat.toList lowered

/-- Embeds `_map_game_status`: the numeric status code wins first
(2 means in progress, 3 means final), then case-insensitive substring
matches on the status text in source order, then period-with-clock
presence, then the `"scheduled"` fallback.  `status_text.lower() if
status_text else ""` makes a `None` or empty text match nothing. -/
def _map_game_status (status_text : Option String) (game_status : Option Int)
    (period : Option Int) (clock : Option String) : String :=
  if game_status == some 2 then "inprogress"
  else if game_status == some 3 then "closed"
  else
    let stl : List Char :=
      match status_text with
      | some s => if s ≠ "" then pyLower s else []
      | none => []
    if textHas "final" stl then "closed"
    else if textHas "live" stl || textHas "in progress" stl then "inprogress"
    else if textHas "postponed" stl then "postponed"
    else if textHas "delayed" stl then "delayed"
    else if textHas "pm" stl || textHas "am" stl || textHas "et" stl then "scheduled"
    else if period.isSome && (match clock with | some c => c ≠ "" | none => false) then "inprogress"
    else "scheduled"

/-- Specification-side status cascade, written from the words of the
claim: numeric code 2 then 3, then the five text rules in order, then
period-plus-non-empty-clock, then `"scheduled"`. -/
def claimStatusCascade (status_text : Option String) (game_status : Option Int)
    (period : Option Int) (clock : Option String) : String :=
  let lowered : List Char := pyLower (status_text.getD "")
  if game_status = some 2 then "inprogress"
  else if game_status = some 3 then "closed"
  else if textHas "final" lowered then "closed"
  else if textHas "live" lowered || textHas "in progress" lowered then "inprogress"
  else if textHas "postponed" lowered then "postponed"
  else if textHas "delayed" lowered then "delayed"
  else if textHas "pm" lowered || textHas "am" lowered || textHas "et" lowered then "scheduled"
  else if period.isSome && clock.getD "" ≠ "" then "inprogress"
  else "scheduled"

/-- The classifier's closed output set. -/
def statusSet : List String := ["scheduled", "inprogress", "closed", "postponed", "delayed"]

/-- The transformers call `_map_game_status` with dynamically typed
arguments.  This adapter performs the Python dynamic steps — `== 2` and
`== 3` comparisons first (never raising), then `status_text.lower() if
status_text else ""`, which raises on a truthy non-string — and then
delegates to the typed classifier.  Only presence (`is not None`) of the
period and truthiness of the clock matter downstream, so non-null and
truthy values of other shapes are mapped to dummy present values. -/
def mapGameStatusJson (status_text game_status period clock : Json) : Except PyErr String :=
  if game_status == Json.int 2 then .ok "inprogress"
  else if game_status == Json.int 3 then .ok "closed"
  else do
    let st : Option String ←
      match status_text with
      | .str s => pure (some s)
      | .null => pure none
      | other => if pyTruthy other then .error .typeError else pure none
    let pd : Option Int := match period with | .null => none | .int n => some n | _ => some 0
    let ck : Option String := if pyTruthy clock then some "present" else none
    pure (_map_game_status st none pd ck)

/-! ### Schedule transformer (`transform_scoreboard_to_schedule`) -/

/-- The `for rs in result_sets: if rs.get('name') == target: ... break`
search shared by the transformers: the `rowSet` (default `[]`) of the
first entry whose `name` equals the target, if any. -/
def findRowSet (target : String) : List Json → Except PyErr (Option Json)
  | [] => .ok none
  | rs :: rest => do
      let nm ← pyGet rs "name" .null
      if nm == Json.str target then do
        let rows ← pyGet rs "rowSet" (.arr .nil)
        pure (some rows)
      else findRowSet target rest

/-- The default `dict` the schedule transformer returns for an empty or
unrecognized payload. -/
def defaultSchedule (game_date : Json) : Json :=
  .obj (.cons "date" game_date (.cons "games" (.arr .nil) .nil))

/-- Team sub-dict of a live-scoreboard game: the id is stringified, the
name is the stripped `"city name"` join, and the remaining fields are
copied with their defaults. -/
def buildLiveTeam (td : Json) : Except PyErr JsonObj := do
  let city ← pyGet td "teamCity" (.str "")
  let tname ← pyGet td "teamName" (.str "")
  let nm := pyStrip (pyStr city ++ " " ++ pyStr tname)
  let tid ← pyGet td "teamId" (.str "")
  let tricode ← pyGet td "teamTricode" (.str "")
  let score ← pyGet td "score" .null
  let wins ← pyGet td "wins" .null
  let losses ← pyGet td "losses" .null
  let touts ← pyGet td "timeoutsRemaining" .null
  let ib ← pyGet td "inBonus" .null
  let periods ← pyGet td "periods" (.arr .nil)
  pure (.cons "id" (.str (pyStr tid)) (.cons "name" (.str nm) (.cons "alias" tricode
    (.cons "city" city (.cons "team_name" tname (.cons "score" score (.cons "wins" wins
    (.cons "losses" losses (.cons "timeouts_remaining" touts (.cons "in_bonus" ib
    (.cons "periods" periods .nil)))))))))))

/-- One iteration of the live-scoreboard loop body after the skip guard:
the Sportradar game dict, with the optional trailing fields. -/
def buildLiveGame (parseDate : Json → Option String) (g : Json) (nid : String) :
    Except PyErr Json := do
  let uuid ← nba_game_id_to_uuid nid
  let t ← pyGet g "gameStatusText" (.str "Scheduled")
  let code ← pyGet g "gameStatus" .null
  let per ← pyGet g "period" .null
  let clk ← pyGet g "gameClock" .null
  let status ← mapGameStatusJson t code per clk
  let home ← pyGet g "homeTeam" (.obj .nil)
  let away ← pyGet g "awayTeam" (.obj .nil)
  let homeObj ← buildLiveTeam home
  let awayObj ← buildLiveTeam away
  let base : JsonObj :=
    .cons "id" (.str uuid) (.cons "nba_game_id" (.str nid) (.cons "status" (.str status)
      (.cons "home" (.obj homeObj) (.cons "away" (.obj awayObj) .nil))))
  let et ← pyGet g "gameEt" .null
  let utc ← pyGet g "gameTimeUTC" .null
  let game_time := if pyTruthy et then et else utc
  let base :=
    if pyTruthy game_time then
      match parseDate game_time with
      | some s => if s ≠ "" then pyDictSet base "scheduled" (.str s) else base
      | none => base
    else base
  let base := if pyTruthy per then pyDictSet base "period" per else base
  let base := if pyTruthy clk then pyDictSet base "clock" clk else base
  pure (.obj base)

/-- The live-scoreboard `for nba_game in nba_games` loop: stringify the
game id with default `''`, skip falsy ids, and build each game dict. -/
def procLiveGames (parseDate : Json → Option String) : List Json → Except PyErr (List Json)
  | [] => .ok []
  | g :: rest => do
      let gid ← pyGet g "gameId" (.str "")
      let nid := pyStr gid
      if nid = "" then procLiveGames parseDate rest
      else do
        let game ← buildLiveGame parseDate g nid
        let tail ← procLiveGames parseDate rest
        pure (game :: tail)

/-- Name and alias of one side, as `_extract_teams_from_scoreboard`
returns them. -/
structure TeamNA where
  name : Json
  tAlias : Json
  deriving DecidableEq

/-- The `for row in line_score` update loop of
`_extract_teams_from_scoreboard`. -/
def extractTeamsLoop (hid vid : Option String) :
    List Json → TeamNA × TeamNA → Except PyErr (TeamNA × TeamNA)
  | [], acc => .ok acc
  | row :: rest, (ht, vt) => do
      let len ← pyLen row
      let tid : Option String ←
        if 1 < len then do
          let c ← pyIndex row 1
          pure (some (pyStr c))
        else pure none
      let ab ← if 2 < len then pyIndex row 2 else pure (.str "")
      let nm ← if 3 < len then pyIndex row 3 else pure (.str "")
      if tid = hid then extractTeamsLoop hid vid rest (⟨nm, ab⟩, vt)
      else if tid = vid then extractTeamsLoop hid vid rest (ht, ⟨nm, ab⟩)
      else extractTeamsLoop hid vid rest (ht, vt)

/-- Embeds `_extract_teams_from_scoreboard`: find the `LineScore` row set
and fold its rows; both teams default to empty name and alias. -/
def _extract_teams_from_scoreboard (data : Json) (hid vid : Option String) :
    Except PyErr (TeamNA × TeamNA) := do
  let dflt : TeamNA × TeamNA := (⟨.str "", .str ""⟩, ⟨.str "", .str ""⟩)
  let result_sets ← pyGet data "resultSets" (.arr .nil)
  let rsList ← pyIterList result_sets
  let ls ← findRowSet "LineScore" rsList
  match ls with
  | none => pure dflt
  | some rows =>
      if pyTruthy rows then do
        let rowList ← pyIterList rows
        extractTeamsLoop hid vid rowList dflt
      else pure dflt

/-- The guarded column read `row[i] if len(row) > i else None`, with the
read value stringified (`str(game_row[i])`). -/
def colStrOpt (row : Json) (len i : Nat) : Except PyErr (Option String) :=
  if i < len then do
    let c ← pyIndex row i
    pure (some (pyStr c))
  else pure none

/-- The guarded column read `row[i] if len(row) > i else dflt`. -/
def colD (row : Json) (len i : Nat) (dflt : Json) : Except PyErr Json :=
  if i < len then pyIndex row i else pure dflt

/-- One iteration of the stats-scoreboard loop body after the skip guard. -/
def buildStatsGame (parseDate : Json → Option String) (data : Json) (nid : String)
    (date_est text : Json) (hid vid : Option String) : Except PyErr Json := do
  let uuid ← nba_game_id_to_uuid nid
  let status ← mapGameStatusJson text .null .null .null
  let teams ← _extract_teams_from_scoreboard data hid vid
  let idOf : Option String → Json := fun o =>
    match o with
    | some s => if s ≠ "" then .str s else .null
    | none => .null
  let base : JsonObj :=
    .cons "id" (.str uuid) (.cons "nba_game_id" (.str nid) (.cons "status" (.str status)
      (.cons "home" (.obj (.cons "id" (idOf hid) (.cons "name" teams.1.name
        (.cons "alias" teams.1.tAlias .nil))))
      (.cons "away" (.obj (.cons "id" (idOf vid) (.cons "name" teams.2.name
        (.cons "alias" teams.2.tAlias .nil)))) .nil))))
  let base :=
    if pyTruthy date_est then
      match parseDate date_est with
      | some s => if s ≠ "" then pyDictSet base "scheduled" (.str s) else base
      | none => base
    else base
  pure (.obj base)

/-- The stats-scoreboard `for game_row in game_header` loop: extract the
guarded columns, skip falsy ids (`None` from a missing column or the
empty string), and build each game dict. -/
def procStatsRows (parseDate : Json → Option String) (data : Json) :
    List Json → Except PyErr (List Json)
  | [] => .ok []
  | row :: rest => do
      let len ← pyLen row
      let nidOpt ← colStrOpt row len 0
      let date_est ← colD row len 1 .null
      let text ← colD row len 4 (.str "Scheduled")
      let hid ← colStrOpt row len 6
      let vid ← colStrOpt row len 7
      match nidOpt with
      | none => procStatsRows parseDate data rest
      | some nid =>
          if nid = "" then procStatsRows parseDate data rest
          else do
            let game ← buildStatsGame parseDate data nid date_est text hid vid
            let tail ← procStatsRows parseDate data rest
            pure (game :: tail)

/-- The conditional reassignment of the schedule date: the scoreboard's
own `gameDate` when truthy (reread by subscript), else the caller's
date. -/
def liveDate (sb gd game_date : Json) : Except PyErr Json :=
  if pyTruthy gd then pySubscript sb "gameDate" else pure game_date

/-- Evaluation of the live-format guard
`'scoreboard' in scoreboard_data and 'games' in scoreboard_data['scoreboard']`;
the membership tests themselves can raise on non-container values. -/
def scoreboardGuard (data : Json) : Except PyErr Bool := do
  let b ← pyInJson "scoreboard" data
  if b then do
    let sb ← pySubscript data "scoreboard"
    pyInJson "games" sb
  else pure false

/-- Embeds `transform_scoreboard_to_schedule`.  `_parse_nba_date` touches
no state the claims mention, so it is a parameter `parseDate`; a `none`
result covers both an exception (caught and ignored by the source) and a
falsy return, either of which leaves the `scheduled` field unset. -/
def transform_scoreboard_to_schedule (parseDate : Json → Option String)
    (scoreboard_data game_date : Json) : Except PyErr Json := do
  let live ← scoreboardGuard scoreboard_data
  if live then do
    let sb ← pySubscript scoreboard_data "scoreboard"
    let gd ← pyGet sb "gameDate" .null
    let date ← liveDate sb gd game_date
    let gamesJ ← pySubscript sb "games"
    let gList ← pyIterList gamesJ
    let games ← procLiveGames parseDate gList
    pure (.obj (.cons "date" date (.cons "games" (.arr (JsonArr.ofList games)) .nil)))
  else do
    let hasRS ← pyInJson "resultSets" scoreboard_data
    if hasRS then do
      let result_sets ← pyGet scoreboard_data "resultSets" (.arr .nil)
      let rsList ← pyIterList result_sets
      let gh ← findRowSet "GameHeader" rsList
      match gh with
      | none => pure (defaultSchedule game_date)
      | some rows =>
          if pyTruthy rows then do
            let rowList ← pyIterList rows
            let games ← procStatsRows parseDate scoreboard_data rowList
            pure (.obj (.cons "date" game_date (.cons "games" (.arr (JsonArr.ofList games)) .nil)))
          else pure (defaultSchedule game_date)
    else do
      let _ ← pyKeysList scoreboard_data
      pure (defaultSchedule game_date)

/-! ### Play-by-play transformer (`transform_playbyplay_to_pbp`) -/

/-- The chain of shape probes that locates the `actions` list: a dict
`game` with truthy `actions`, then top-level `actions`, then a `game`
that may be a non-empty list whose head is a dict with truthy `actions`. -/
def pbpActionsChain (d : Json) : Except PyErr (Option Json) := do
  let g ← pyGet d "game" .null
  let gIsDict := match g with | .obj _ => true | _ => false
  if pyTruthy g && gIsDict then do
    let a ← pyGet g "actions" .null
    if pyTruthy a then do
      let g2 ← pySubscript d "game"
      let a2 ← pySubscript g2 "actions"
      pure (some a2)
    else pure none
  else do
    let a ← pyGet d "actions" .null
    if pyTruthy a then do
      let a2 ← pySubscript d "actions"
      pure (some a2)
    else do
      let hasGame ← pyInJson "game" d
      if hasGame then do
        let gd ← pyGet d "game" .null
        let gd2 ←
          match gd with
          | .arr xs =>
              if 0 < xs.toList.length then pyIndex gd 0 else pure gd
          | _ => pure gd
        match gd2 with
        | .obj _ => do
            let a3 ← pyGet gd2 "actions" .null
            if pyTruthy a3 then do
              let a4 ← pySubscript gd2 "actions"
              pure (some a4)
            else pure none
        | _ => pure none
      else pure none

/-- Keys the live play-by-play event literal already names explicitly;
the `**` comprehension copies every other key of the action. -/
def pbpExplicitKeys : List String :=
  ["actionNumber", "actionType", "period", "clock", "description", "scoreHome",
   "scoreAway", "teamId", "teamTricode", "playerName", "playerNameI"]

/-- The live `for idx, action in enumerate(actions)` loop: skip non-dict
actions, build the twelve named fields, then merge the remaining action
items over them. -/
def buildLiveEvents (idx : Nat) : List Json → Except PyErr (List Json)
  | [] => .ok []
  | a :: rest =>
      match a with
      | .obj kvs => do
          let en ← pyGet a "actionNumber" (.int (idx + 1))
          let at_ ← pyGet a "actionType" (.str "")
          let per ← pyGet a "period" (.int 0)
          let clk ← pyGet a "clock" (.str "")
          let desc ← pyGet a "description" (.str "")
          let sh ← pyGet a "scoreHome" (.str "")
          let sa ← pyGet a "scoreAway" (.str "")
          let tid ← pyGet a "teamId" .null
          let tri ← pyGet a "teamTricode" (.str "")
          let pn ← pyGet a "playerName" (.str "")
          let pni ← pyGet a "playerNameI" (.str "")
          let base : JsonObj :=
            .cons "sequence" (.int (idx + 1)) (.cons "event_num" en (.cons "action_type" at_
              (.cons "period" per (.cons "clock" clk (.cons "description" desc
              (.cons "score_home" sh (.cons "score_away" sa (.cons "team_id" tid
              (.cons "team_tricode" tri (.cons "player_name" pn
              (.cons "player_name_i" pni .nil)))))))))))
          let extra := kvs.toList.filter fun kv => !(pbpExplicitKeys.contains kv.1)
          let ev := Json.obj (pyDictExtend base extra)
          let tail ← buildLiveEvents (idx + 1) rest
          pure (ev :: tail)
      | _ => buildLiveEvents (idx + 1) rest

/-- The stats `for idx, row in enumerate(pbp_rows)` loop. -/
def buildStatsEvents (idx : Nat) : List Json → Except PyErr (List Json)
  | [] => .ok []
  | row :: rest => do
      let len ← pyLen row
      let en ← if 1 < len then pyIndex row 1 else pure (.int (idx + 1))
      let ev := Json.obj (.cons "sequence" (.int (idx + 1)) (.cons "event_num" en .nil))
      let tail ← buildStatsEvents (idx + 1) rest
      pure (ev :: tail)

/-- The pbp top-level dict. -/
def pbpResult (game_id : Json) (events : List Json) : Json :=
  .obj (.cons "id" game_id (.cons "sequence" (.int events.length)
    (.cons "events" (.arr (JsonArr.ofList events)) .nil)))

/-- Embeds `transform_playbyplay_to_pbp`: locate the actions via the
probe chain; a truthy non-list actions value is replaced by `[]`; with no
truthy actions, fall back to the `resultSets` format; otherwise return
the default empty payload. -/
def transform_playbyplay_to_pbp (pbp_data game_id : Json) : Except PyErr Json := do
  let actions ← pbpActionsChain pbp_data
  let actTruthy := match actions with | some a => pyTruthy a | none => false
  if actTruthy then do
    let evs ←
      match actions with
      | some (.arr xs) => buildLiveEvents 0 xs.toList
      | _ => pure []
    pure (pbpResult game_id evs)
  else do
    let rsProbe ← pyGet pbp_data "resultSets" .null
    if pyTruthy rsProbe then do
      let result_sets ← pyGet pbp_data "resultSets" (.arr .nil)
      let rsList ← pyIterList result_sets
      let pr ← findRowSet "PlayByPlay" rsList
      match pr with
      | some rows =>
          if pyTruthy rows then do
            let rowList ← pyIterList rows
            let evs ← buildStatsEvents 0 rowList
            pure (pbpResult game_id evs)
          else pure (pbpResult game_id [])
      | none => pure (pbpResult game_id [])
    else pure (pbpResult game_id [])

/-! ### Redis lookups (`utils/redis_client.py`) -/

/-- Outcome of the attempt to read `game:meta:...` from Redis, with the
stored value given by its `json.loads` result: `connError` and
`timeoutError` are exceptions raised while reaching the store, `absent`
is a missing key, `value none` is a stored string that `json.loads`
rejects (an empty stored string behaves identically: both paths yield
`None` from `get_game_metadata`), and `value (some j)` is a stored
string that parses to `j`. -/
inductive StoreResult where
  | connError
  | timeoutError
  | absent
  | value (parsed : Option Json)
  deriving DecidableEq

/-- Embeds `get_game_metadata`: every exception while reaching or parsing
the store is caught and turned into `None`; a present, parsable value is
returned as parsed. -/
def get_game_metadata : StoreResult → Option Json
  | .connError => none
  | .timeoutError => none
  | .absent => none
  | .value none => none
  | .value (some j) => some j

/-- Embeds `get_nba_game_id_from_uuid`: take the metadata from
`get_game_metadata`; when it is truthy and `'nba_game_id' in metadata`
holds, return `metadata['nba_game_id']`, else `None`.  The `in` test and
the subscript follow Python semantics and can raise a `TypeError` on
non-dict metadata. -/
def get_nba_game_id_from_uuid (r : StoreResult) : Except PyErr (Option Json) :=
  match get_game_metadata r with
  | none => .ok none
  | some j =>
      if pyTruthy j then do
        let b ← pyInJson "nba_game_id" j
        if b then do
          let v ← pySubscript j "nba_game_id"
          pure (some v)
        else pure none
      else pure none

/-! ### Conditional-request decision (`endpoints/games.py`, `endpoints/schedule.py`) -/

/-- What the endpoint returns after computing the payload and its ETag. -/
inductive CondDecision where
  | notModified304
  | send
  deriving DecidableEq

/-- Embeds the conditional-request check shared by the three endpoints:
`if if_none_match and if_none_match == etag: return Response(status_code=304)`,
else return the full payload. -/
def conditional_response (if_none_match : Option String) (etag : String) : CondDecision :=
  match if_none_match with
  | none => .send
  | some h => if h ≠ "" && h == etag then .notModified304 else .send

/-! ### Game endpoints (`endpoints/games.py`)

The endpoint bodies run inside `try: ... except Exception as e: raise
HTTPException(status_code=500, ...)`.  FastAPI's `HTTPException` is an
`Exception` subclass, so the `raise HTTPException(status_code=404, ...)`
issued for an unresolvable id is caught by that blanket handler and
re-raised as a 500.  The model returns the final HTTP status together
with the list of provider ids passed to the upstream client, so that
theorems can speak about whether the upstream fetch ran.  The upstream
client call and (for the summary endpoint) the boxscore transformer are
collaborator parameters: the claims about these endpoints hold for every
behaviour of theirs. -/

/-- Final status and upstream-fetch log of one endpoint request. -/
structure EndpointRun where
  status : Nat
  fetched : List Json
  deriving DecidableEq

/-- Shared tail of both game endpoints: fetch from the upstream client,
transform, compute the ETag and decide the conditional response; any
exception becomes a 500. -/
def gameFetchPhase (if_none_match : Option String) (upstream : Json → Except PyErr Json)
    (transform : Json → String → Except PyErr Json) (nbaId : Json) (game_uuid : String) :
    EndpointRun :=
  match upstream nbaId with
  | .error _ => ⟨500, [nbaId]⟩
  | .ok raw =>
      match transform raw game_uuid with
      | .error _ => ⟨500, [nbaId]⟩
      | .ok payload =>
          match conditional_response if_none_match (calculate_etag payload) with
          | .notModified304 => ⟨304, [nbaId]⟩
          | .send => ⟨200, [nbaId]⟩

/-- Embeds `get_game_summary`: classify the path parameter, resolve an
opaque id through Redis (a falsy resolution raises the 404
`HTTPException`, which the blanket handler converts to a 500), then run
the fetch phase. -/
def get_game_summary_endpoint (game_id : String) (if_none_match : Option String)
    (store : StoreResult) (upstream : Json → Except PyErr Json)
    (transform : Json → String → Except PyErr Json) : EndpointRun :=
  if is_nba_game_id game_id then
    match nba_game_id_to_uuid game_id with
    | .error _ => ⟨500, []⟩
    | .ok game_uuid => gameFetchPhase if_none_match upstream transform (.str game_id) game_uuid
  else
    match get_nba_game_id_from_uuid store with
    | .error _ => ⟨500, []⟩
    | .ok none => ⟨500, []⟩
    | .ok (some v) =>
        if pyTruthy v then gameFetchPhase if_none_match upstream transform v game_id
        else ⟨500, []⟩

/-- Embeds `get_play_by_play`: identical id handling, with the real
play-by-play transformer and a `pbp.get('events')` probe that only
feeds a log statement. -/
def get_play_by_play_endpoint (game_id : String) (if_none_match : Option String)
    (store : StoreResult) (upstream : Json → Except PyErr Json) : EndpointRun :=
  let fetchPhase : Json → String → EndpointRun := fun nbaId game_uuid =>
    match upstream nbaId with
    | .error _ => ⟨500, [nbaId]⟩
    | .ok raw =>
        match transform_playbyplay_to_pbp raw (.str game_uuid) with
        | .error _ => ⟨500, [nbaId]⟩
        | .ok pbp =>
            match pyGet pbp "events" .null with
            | .error _ => ⟨500, [nbaId]⟩
            | .ok _ =>
                match conditional_response if_none_match (calculate_etag pbp) with
                | .notModified304 => ⟨304, [nbaId]⟩
                | .send => ⟨200, [nbaId]⟩
  if is_nba_game_id game_id then
    match nba_game_id_to_uuid game_id with
    | .error _ => ⟨500, []⟩
    | .ok game_uuid => fetchPhase (.str game_id) game_uuid
  else
    match get_nba_game_id_from_uuid store with
    | .error _ => ⟨500, []⟩
    | .ok none => ⟨500, []⟩
    | .ok (some v) =>
        if pyTruthy v then fetchPhase v game_id
        else ⟨500, []⟩

/-! ### Specification-side predicates used by the claims -/

/-- Are the keys of one object level in non-decreasing lexicographic
order? -/
def keysChainLe : JsonObj → Bool
  | .nil => true
  | .cons _ _ .nil => true
  | .cons k _ (.cons k2 v2 t) => strLeB k k2 && keysChainLe (.cons k2 v2 t)

mutual

/-- Keys sorted lexicographically at every nesting level (the canonical
form the specification describes). -/
def keysSortedJson : Json → Bool
  | .arr xs => keysSortedArr xs
  | .obj kvs => keysChainLe kvs && keysSortedVals kvs
  | _ => true

/-- `keysSortedJson` on each array element. -/
def keysSortedArr : JsonArr → Bool
  | .nil => true
  | .cons h t => keysSortedJson h && keysSortedArr t

/-- `keysSortedJson` on each object value. -/
def keysSortedVals : JsonObj → Bool
  | .nil => true
  | .cons _ v t => keysSortedJson v && keysSortedVals t

end

mutual

/-- No duplicate keys at any object level: the property every value that
came from a Python dict has. -/
def nodupKeysJson : Json → Bool
  | .arr xs => nodupKeysArr xs
  | .obj kvs => decide kvs.keys.Nodup && nodupKeysVals kvs
  | _ => true

/-- `nodupKeysJson` on each array element. -/
def nodupKeysArr : JsonArr → Bool
  | .nil => true
  | .cons h t => nodupKeysJson h && nodupKeysArr t

/-- `nodupKeysJson` on each object value. -/
def nodupKeysVals : JsonObj → Bool
  | .nil => true
  | .cons _ v t => nodupKeysJson v && nodupKeysVals t

end

/-- Entry-list permutation: the reordering of one object level. -/
def JPerm (a b : JsonObj) : Prop := a.toList.Perm b.toList

mutual

/-- Two values are equal as mappings: identical scalars, pointwise
equivalent arrays, and objects whose entries agree up to a permutation of
the key insertion order, recursively at every nesting level.  This is
the claim's "same keys mapped to same values, any key order". -/
inductive JEquiv : Json → Json → Prop where
  | null : JEquiv .null .null
  | bool (b : Bool) : JEquiv (.bool b) (.bool b)
  | int (n : Int) : JEquiv (.int n) (.int n)
  | str (s : String) : JEquiv (.str s) (.str s)
  | arr {xs ys : JsonArr} : JArrEquiv xs ys → JEquiv (.arr xs) (.arr ys)
  | obj {kvs mid kvs2 : JsonObj} :
      JObjEquiv kvs mid → JPerm mid kvs2 → JEquiv (.obj kvs) (.obj kvs2)

/-- Pointwise equivalence of arrays. -/
inductive JArrEquiv : JsonArr → JsonArr → Prop where
  | nil : JArrEquiv .nil .nil
  | cons {h1 h2 : Json} {t1 t2 : JsonArr} :
      JEquiv h1 h2 → JArrEquiv t1 t2 → JArrEquiv (.cons h1 t1) (.cons h2 t2)

/-- Pointwise equivalence of object entries: same keys in the same
order, equivalent values. -/
inductive JObjEquiv : JsonObj → JsonObj → Prop where
  | nil : JObjEquiv .nil .nil
  | cons (k : String) {v1 v2 : Json} {t1 t2 : JsonObj} :
      JEquiv v1 v2 → JObjEquiv t1 t2 → JObjEquiv (.cons k v1 t1) (.cons k v2 t2)

end

/-- The schedule's games list, for stating invariants over the
transformer output. -/
def gamesOf (r : Json) : List Json :=
  match r with
  | .obj kvs =>
      match kvs.lookup "games" with
      | some (.arr xs) => xs.toList
      | _ => []
  | _ => []

/-- One emitted game is id-consistent: its `nba_game_id` is a non-empty
string and its `id` is exactly the UUID the mapper derives from it. -/
def gameIdConsistent (g : Json) : Bool :=
  match g with
  | .obj kvs =>
      match kvs.lookup "nba_game_id", kvs.lookup "id" with
      | some (.str nid), some (.str u) =>
          nid ≠ "" && (nba_game_id_to_uuid nid == Except.ok u)
      | _, _ => false
  | _ => false

/-- The ten Arabic-Indic digits U+0660 to U+0669, each accepted by
Python `str.isdigit`, none an ASCII digit. -/
def arabicTenDigits : String :=
  String.mk (List.map Char.ofNat [1632, 1633, 1634, 1635, 1636, 1637, 1638, 1639, 1640, 1641])

/-- The ten Devanagari digits U+0966 to U+096F, each accepted by
Python `str.isdigit`, none an ASCII digit. -/
def devanagariTenDigits : String :=
  String.mk (List.map Char.ofNat [2406, 2407, 2408, 2409, 2410, 2411, 2412, 2413, 2414, 2415])

/-- A scoreboard payload on which the live-format guard itself raises:
`'games' in 5` is a `TypeError`. -/
def badScoreboardPayload : Json := .obj (.cons "scoreboard" (.int 5) .nil)

/-- A live scoreboard whose single game entry carries a JSON null
`gameId`. -/
def nullGameIdScoreboard : Json :=
  .obj (.cons "scoreboard" (.obj (.cons "games"
    (.arr (.cons (.obj (.cons "gameId" .null .nil)) .nil)) .nil)) .nil)

/-- A live scoreboard with a single game entry, for stating the skip
behaviour of the transformer. -/
def liveSingleGame (ekvs : JsonObj) : Json :=
  .obj (.cons "scoreboard" (.obj (.cons "games"
    (.arr (.cons (.obj ekvs) .nil)) .nil)) .nil)

/-- The claim's example payload in one insertion order. -/
def pairPayloadA : Json := .obj (.cons "a" (.int 1) (.cons "b" (.int 2) .nil))

/-- The claim's example payload in the other insertion order. -/
def pairPayloadB : Json := .obj (.cons "b" (.int 2) (.cons "a" (.int 1) .nil))

/-! ## Theorems -/

/-! ### Support lemmas -/

/-- The embedded mapper agrees with CPython on a reference input:
`uuid.uuid5(NBA_GAME_ID_NAMESPACE, "0022300123")`. -/
theorem uuid5_reference_value :
    nba_game_id_to_uuid "0022300123" = Except.ok "c5eb0d93-200d-5c7a-9cca-149bccf231bf" := by
  decide

/-- The embedded ETag agrees with CPython on a reference payload. -/
theorem etag_reference_value :
    calculate_etag (.obj (.cons "b" (.int 2) (.cons "a" (.int 1) .nil))) =
      "\"d8497d9d82770a70\"" := by
  decide

/-- An ETag token is never the empty string. -/
theorem calculate_etag_ne_empty (d : Json) : calculate_etag d ≠ "" := by
  unfold calculate_etag
  intro h
  have hd := congrArg String.data h
  simp at hd

/-! ### C1 -/

/-- C1: for every input whose stripped form is non-empty,
`nba_game_id_to_uuid` returns exactly the RFC 4122 version-5 UUID of the
stripped input under the fixed namespace
`6ba7b810-9dad-11d1-80b4-00c04fd430c8`; for every input whose stripped
form is empty it fails with a `ValueError`; and as a pure function it is
deterministic across repeated calls. -/
theorem C1_deriveStable_uuid5 (s : String) :
    (pyStrip s ≠ "" →
      nba_game_id_to_uuid s = Except.ok (uuidV5 NBA_GAME_ID_NAMESPACE (pyStrip s))) ∧
    (pyStrip s = "" →
      nba_game_id_to_uuid s = Except.error (PyErr.valueError "NBA game ID cannot be empty")) ∧
    nba_game_id_to_uuid s = nba_game_id_to_uuid s := by
  refine ⟨fun h => ?_, fun h => ?_, rfl⟩ <;> simp [nba_game_id_to_uuid, h]

/-- Witness for C1 at a whitespace-padded provider id. -/
theorem C1_deriveStable_uuid5_witness :
    pyStrip " 0022300123 " ≠ "" ∧
    nba_game_id_to_uuid " 0022300123 " =
      Except.ok (uuidV5 NBA_GAME_ID_NAMESPACE (pyStrip " 0022300123 ")) :=
  ⟨by decide, (C1_deriveStable_uuid5 " 0022300123 ").1 (by decide)⟩

/-! ### C2 -/

/-- C2 counterexample: the ten Arabic-Indic digits, and likewise the
ten Devanagari digits, form 10-character strings that `is_nba_game_id`
accepts although none of their characters is an ASCII decimal digit, so
"ProviderForm iff exactly 10 ASCII decimal digits" fails on these
inputs. -/
theorem C2_counterexample :
    is_nba_game_id arabicTenDigits = true ∧
    arabicTenDigits.toList.all isAsciiDigitChar = false ∧
    arabicTenDigits.toList.length = 10 ∧
    is_nba_game_id devanagariTenDigits = true ∧
    devanagariTenDigits.toList.all isAsciiDigitChar = false ∧
    devanagariTenDigits.toList.length = 10 := by
  decide

/-- C2 amended: `is_nba_game_id` returns `true` exactly on strings of 10
characters each accepted by Python `str.isdigit` — the full Unicode
decimal/digit table (`pyDigitRanges`), a strict superset of the ASCII
digits that includes, e.g., the Arabic-Indic and Devanagari digits.  The
check is a pure predicate of the string (it consults no store). -/
theorem C2_classify (s : String) :
    is_nba_game_id s = true ↔
      s.toList.length = 10 ∧ s.toList.all pyIsDigitChar = true := by
  unfold is_nba_game_id
  constructor
  · intro h
    simp only [Bool.and_eq_true, beq_iff_eq] at h
    exact ⟨h.2, h.1.2⟩
  · rintro ⟨hlen, hall⟩
    have hne : s ≠ "" := by
      intro he
      subst he
      simp at hlen
    simp only [Bool.and_eq_true, decide_eq_true_eq, beq_iff_eq]
    exact ⟨⟨hne, hall⟩, hlen⟩

/-- Witness for C2 at the reference provider id. -/
theorem C2_classify_witness :
    "0022300123".toList.length = 10 ∧ "0022300123".toList.all pyIsDigitChar = true ∧
    is_nba_game_id "0022300123" = true :=
  ⟨by decide, by decide, (C2_classify "0022300123").mpr ⟨by decide, by decide⟩⟩

/-! ### C5 -/

/-- C5: the conditional decision returns the 304 result exactly when the
request header is present and string-equal, quotes included, to the
computed ETag; an absent header or any inequality sends the payload. -/
theorem C5_conditional_decision (h : Option String) (d : Json) :
    conditional_response h (calculate_etag d) = CondDecision.notModified304 ↔
      h = some (calculate_etag d) := by
  cases h with
  | none => simp [conditional_response]
  | some s =>
      simp only [conditional_response, Option.some.injEq]
      by_cases hs : s = calculate_etag d
      · subst hs
        simp [calculate_etag_ne_empty d]
      · simp [hs]

/-- Witness for C5: a matching header yields 304, a mismatched and an
absent header send the payload. -/
theorem C5_conditional_decision_witness :
    conditional_response (some (calculate_etag .null)) (calculate_etag .null) =
      CondDecision.notModified304 ∧
    conditional_response (some "\"xyz000\"") (calculate_etag .null) = CondDecision.send ∧
    conditional_response none (calculate_etag .null) = CondDecision.send := by
  refine ⟨(C5_conditional_decision (some (calculate_etag .null)) .null).mpr rfl, ?_, rfl⟩
  decide

/-! ### C7 -/

/-- C7: for every opaque (non-provider-form) game id absent from the
store, both game endpoints never invoke the upstream client — but the
response status is 500, not the 404 the claim states: the
`HTTPException(status_code=404, ...)` is raised inside the `try` block
whose blanket `except Exception` handler replaces it with a 500. -/
theorem C7_absent_stable_id (game_id : String) (inm : Option String)
    (upstream : Json → Except PyErr Json) (transform : Json → String → Except PyErr Json)
    (h : is_nba_game_id game_id = false) :
    get_game_summary_endpoint game_id inm StoreResult.absent upstream transform =
      ⟨500, []⟩ ∧
    get_play_by_play_endpoint game_id inm StoreResult.absent upstream = ⟨500, []⟩ := by
  constructor <;>
    simp [get_game_summary_endpoint, get_play_by_play_endpoint, h,
      get_nba_game_id_from_uuid, get_game_metadata]

/-- Witness for C7 at a concrete stable id and trivial collaborators. -/
theorem C7_absent_stable_id_witness :
    is_nba_game_id "23c1b90f-1dbe-559f-b598-498878ed17f0" = false ∧
    get_game_summary_endpoint "23c1b90f-1dbe-559f-b598-498878ed17f0" none
      StoreResult.absent (fun _ => Except.ok .null) (fun _ _ => Except.ok .null) =
      ⟨500, []⟩ :=
  ⟨by decide,
    (C7_absent_stable_id "23c1b90f-1dbe-559f-b598-498878ed17f0" none
      (fun _ => Except.ok .null) (fun _ _ => Except.ok .null) (by decide)).1⟩

/-! ### C8 -/

/-- C8 counterexample: a stored value that parses to the number 42 is
truthy and lacks the provider-id field, yet the lookup raises a
`TypeError` (`'nba_game_id' in 42`) instead of returning `NotFound`. -/
theorem C8_counterexample :
    get_nba_game_id_from_uuid (StoreResult.value (some (.int 42))) =
      Except.error PyErr.typeError ∧
    get_nba_game_id_from_uuid (StoreResult.value (some (.int 42))) ≠ Except.ok none := by
  decide

/-- C8 amended: connection failures, timeouts, an absent key and an
unparsable stored value all surface as `NotFound` (`None`), and for a
stored value that parses to a dict the lookup returns exactly the value
at the provider-id field (or `NotFound` when the field is missing); a
stored value parsing to a truthy non-dict can instead raise a
`TypeError`. -/
theorem C8_resolve_provider_id (r : StoreResult) :
    (r = StoreResult.connError ∨ r = StoreResult.timeoutError ∨ r = StoreResult.absent ∨
        r = StoreResult.value none →
      get_nba_game_id_from_uuid r = Except.ok none) ∧
    (∀ kvs : JsonObj, r = StoreResult.value (some (.obj kvs)) →
      get_nba_game_id_from_uuid r = Except.ok (kvs.lookup "nba_game_id")) := by
  constructor
  · rintro (rfl | rfl | rfl | rfl) <;> rfl
  · rintro kvs rfl
    cases kvs with
    | nil => rfl
    | cons k v t =>
        simp only [get_nba_game_id_from_uuid, get_game_metadata, pyTruthy, if_true]
        cases hl : JsonObj.lookup (.cons k v t) "nba_game_id" with
        | none =>
            simp only [pyInJson, JsonObj.hasKey, hl]
            rfl
        | some w =>
            simp only [pyInJson, JsonObj.hasKey, pySubscript, hl]
            rfl

/-- Witness for C8: a parsable record with the provider-id field
resolves to that field's value. -/
theorem C8_resolve_provider_id_witness :
    get_nba_game_id_from_uuid
        (StoreResult.value (some (.obj (.cons "nba_game_id" (.str "0022300123") .nil)))) =
      Except.ok ((JsonObj.cons "nba_game_id" (.str "0022300123") .nil).lookup "nba_game_id") :=
  (C8_resolve_provider_id _).2 _ rfl

/-- Lower-casing the empty string gives the empty character list. -/
theorem pyLower_empty : pyLower "" = [] := rfl

/-! ### C6 -/

/-- C6: the classifier returns exactly the value of the claim's
first-match-wins cascade — numeric code 2 then 3, then the ordered
case-insensitive text matches, then period-with-non-empty-clock, then
the scheduled fallback — and its output always lies in the closed
five-value status set. -/
theorem C6_status_classification (t : Option String) (g p : Option Int) (c : Option String) :
    _map_game_status t g p c = claimStatusCascade t g p c ∧
    statusSet.contains (_map_game_status t g p c) = true := by
  constructor
  · cases t with
    | none => cases c <;> simp [_map_game_status, claimStatusCascade, beq_iff_eq, pyLower_empty]
    | some s =>
        by_cases hs : s = "" <;> cases c <;>
          simp [_map_game_status, claimStatusCascade, beq_iff_eq, hs, pyLower_empty]
  · simp only [_map_game_status]
    split_ifs <;> decide

/-- Witness for C6: the two reference inputs of the claim. -/
theorem C6_status_classification_witness :
    _map_game_status (some "Q4 0:00") (some 3) (some 4) (some "0:00") = "closed" ∧
    _map_game_status (some "7:00 pm ET") none none none = "scheduled" := by
  refine ⟨?_, ?_⟩ <;> decide

/-! ### C9 -/

/-- C9 counterexample: the payload whose `scoreboard` value is the
number 5 matches no known shape, yet the live-format guard itself —
`'games' in scoreboard_data['scoreboard']` — raises a `TypeError`, so
the transformer fails instead of returning the structurally valid
default. -/
theorem C9_counterexample :
    transform_scoreboard_to_schedule (fun _ => none) badScoreboardPayload (.str "2025-01-08") =
      Except.error PyErr.typeError ∧
    transform_scoreboard_to_schedule (fun _ => none) badScoreboardPayload (.str "2025-01-08") ≠
      Except.ok (defaultSchedule (.str "2025-01-08")) := by
  decide

/-- C9 amended: whenever the payload is a mapping and the format probes
evaluate cleanly and reject it — the live-format guard yields `False`
and the payload has no `resultSets` member (schedule side), or the
actions chain finds nothing truthy and the `resultSets` probe is falsy
(pbp side) — the transformers return the structurally valid defaults:
the date with an empty games list, and the game id with sequence 0 and
an empty events list.  (A payload that makes a probe itself raise, such
as a non-container `scoreboard` value, propagates the exception; and a
non-mapping schedule payload reaches the unguarded
`list(scoreboard_data.keys())` in the unknown-format warning and raises
there, see `transform_unknown_nonDict_raises`.) -/
theorem C9_default_payloads :
    (∀ (parseDate : Json → Option String) (kvs : JsonObj) (date : Json),
      scoreboardGuard (.obj kvs) = Except.ok false →
      pyInJson "resultSets" (.obj kvs) = Except.ok false →
      transform_scoreboard_to_schedule parseDate (.obj kvs) date =
        Except.ok (defaultSchedule date)) ∧
    (∀ (data gid : Json) (act : Option Json) (rsv : Json),
      pbpActionsChain data = Except.ok act →
      (∀ a, act = some a → pyTruthy a = false) →
      pyGet data "resultSets" Json.null = Except.ok rsv →
      pyTruthy rsv = false →
      transform_playbyplay_to_pbp data gid = Except.ok (pbpResult gid [])) := by
  constructor
  · intro parseDate kvs date h1 h2
    simp only [transform_scoreboard_to_schedule, h1, h2]
    rfl
  · intro data gid act rsv h1 h2 h3 h4
    cases act with
    | none =>
        simp only [transform_playbyplay_to_pbp, bind, Except.bind, h1, h3, h4]
        rfl
    | some a =>
        have ha := h2 a rfl
        simp only [transform_playbyplay_to_pbp, bind, Except.bind, h1, h3, h4, ha]
        rfl

/-- A non-mapping payload whose probes evaluate cleanly still raises:
the unknown-format warning calls `list(scoreboard_data.keys())` with no
isinstance guard, an `AttributeError` for a list or a string. -/
theorem transform_unknown_nonDict_raises :
    transform_scoreboard_to_schedule (fun _ => none) (.arr .nil) (.str "2025-01-08") =
      Except.error PyErr.typeError ∧
    transform_scoreboard_to_schedule (fun _ => none) (.str "hello") (.str "2025-01-08") =
      Except.error PyErr.typeError := by
  decide

/-- Witness for C9 at the empty dict payload. -/
theorem C9_default_payloads_witness :
    transform_scoreboard_to_schedule (fun _ => none) (.obj .nil) (.str "2025-01-08") =
      Except.ok (defaultSchedule (.str "2025-01-08")) ∧
    transform_playbyplay_to_pbp (.obj .nil) (.str "uuid-1") =
      Except.ok (pbpResult (.str "uuid-1") []) :=
  ⟨C9_default_payloads.1 (fun _ => none) .nil (.str "2025-01-08") (by decide) (by decide),
   C9_default_payloads.2 (.obj .nil) (.str "uuid-1") none Json.null (by decide)
     (fun a ha => by cases ha) (by decide) (by decide)⟩

/-! ### Order lemmas for the key comparison -/

/-- Totality of the lexicographic byte order. -/
theorem natListLe_total : ∀ a b : List Nat, natListLe a b = true ∨ natListLe b a = true
  | [], _ => Or.inl rfl
  | _ :: _, [] => Or.inr rfl
  | x :: as_, y :: bs => by
      rcases Nat.lt_trichotomy x y with h | h | h
      · left; simp [natListLe, h]
      · subst h
        rcases natListLe_total as_ bs with ih | ih
        · left; simp [natListLe, ih]
        · right; simp [natListLe, ih]
      · right; simp [natListLe, h]

/-- Transitivity of the lexicographic byte order. -/
theorem natListLe_trans : ∀ a b c : List Nat,
    natListLe a b = true → natListLe b c = true → natListLe a c = true
  | [], _, _, _, _ => rfl
  | _ :: _, [], _, h, _ => by simp [natListLe] at h
  | _ :: _, _ :: _, [], _, h2 => by simp [natListLe] at h2
  | x :: as_, y :: bs, z :: cs, h1, h2 => by
      simp only [natListLe, Bool.or_eq_true, Bool.and_eq_true, decide_eq_true_eq,
        beq_iff_eq] at h1 h2 ⊢
      rcases h1 with h1 | ⟨hxy, h1⟩
      · rcases h2 with h2 | ⟨hyz, h2⟩
        · left; omega
        · left; omega
      · rcases h2 with h2 | ⟨hyz, h2⟩
        · left; omega
        · right; exact ⟨by omega, natListLe_trans as_ bs cs h1 h2⟩

/-- Antisymmetry of the lexicographic byte order. -/
theorem natListLe_antisymm : ∀ a b : List Nat,
    natListLe a b = true → natListLe b a = true → a = b
  | [], [], _, _ => rfl
  | [], _ :: _, _, h2 => by simp [natListLe] at h2
  | _ :: _, [], h1, _ => by simp [natListLe] at h1
  | x :: as_, y :: bs, h1, h2 => by
      simp only [natListLe, Bool.or_eq_true, Bool.and_eq_true, decide_eq_true_eq,
        beq_iff_eq] at h1 h2
      rcases h1 with h1 | ⟨hxy, h1⟩
      · rcases h2 with h2 | ⟨hyx, _⟩ <;> omega
      · rcases h2 with h2 | ⟨_, h2⟩
        · omega
        · rw [hxy, natListLe_antisymm as_ bs h1 h2]

/-- Characters with equal code points are equal. -/
theorem charToNat_inj {a b : Char} (h : a.toNat = b.toNat) : a = b :=
  Char.ext (UInt32.ext h)

/-- Strings with equal code-point sequences are equal. -/
theorem strCodes_inj {a b : String} (h : strCodes a = strCodes b) : a = b := by
  apply String.ext
  have : Function.Injective Char.toNat := fun _ _ hc => charToNat_inj hc
  exact List.map_injective_iff.mpr this h

/-- Antisymmetry of the embedded Python string order. -/
theorem strLeB_antisymm {a b : String} (h1 : strLeB a b = true) (h2 : strLeB b a = true) :
    a = b :=
  strCodes_inj (natListLe_antisymm _ _ h1 h2)

/-! ### Sorted-keys facts for the canonical serialization -/

/-- Round trip of the object entry list. -/
theorem ofList_toList : ∀ l : List (String × Json), (JsonObj.ofList l).toList = l
  | [] => rfl
  | (k, v) :: t => by simp [JsonObj.ofList, JsonObj.toList, ofList_toList t]

/-- A pairwise key-ordered entry list rebuilds to a chain-ordered object. -/
theorem chainLe_ofList : ∀ l : List (String × Json),
    List.Pairwise keyLE l → keysChainLe (JsonObj.ofList l) = true
  | [], _ => rfl
  | [p], _ => rfl
  | (pk, pv) :: (qk, qv) :: t, h => by
      rcases List.pairwise_cons.mp h with ⟨hp, ht⟩
      have hq : strLeB pk qk = true := hp (qk, qv) (List.mem_cons_self _ t)
      have ih := chainLe_ofList ((qk, qv) :: t) ht
      simp only [JsonObj.ofList, keysChainLe, Bool.and_eq_true] at ih ⊢
      exact ⟨hq, ih⟩

/-- The per-level sort produces chain-ordered keys. -/
theorem chainLe_sortObjPairs (kvs : JsonObj) : keysChainLe (sortObjPairs kvs) = true := by
  haveI : IsTotal (String × Json) keyLE := ⟨fun a b => natListLe_total _ _⟩
  haveI : IsTrans (String × Json) keyLE := ⟨fun a b c => natListLe_trans _ _ _⟩
  exact chainLe_ofList _ (List.sorted_insertionSort keyLE kvs.toList)

/-- Entry membership is preserved by the per-level sort. -/
theorem mem_sortObjPairs {p : String × Json} {kvs : JsonObj} :
    p ∈ (sortObjPairs kvs).toList ↔ p ∈ kvs.toList := by
  rw [sortObjPairs, ofList_toList]
  exact (List.perm_insertionSort keyLE kvs.toList).mem_iff

/-- `keysSortedVals` is the conjunction of `keysSortedJson` over the
entry values. -/
theorem keysSortedVals_iff : ∀ o : JsonObj,
    keysSortedVals o = true ↔ ∀ p ∈ o.toList, keysSortedJson p.2 = true
  | .nil => by simp [keysSortedVals, JsonObj.toList]
  | .cons k v t => by
      simp [keysSortedVals, JsonObj.toList, keysSortedVals_iff t]

mutual

/-- Every object level of a recursively key-sorted value is sorted. -/
theorem keysSorted_sortJson : (j : Json) → keysSortedJson (sortJson j) = true
  | .null => rfl
  | .bool _ => rfl
  | .int _ => rfl
  | .str _ => rfl
  | .arr xs => keysSorted_sortArr xs
  | .obj kvs => by
      simp only [sortJson, keysSortedJson, Bool.and_eq_true]
      refine ⟨chainLe_sortObjPairs _, ?_⟩
      rw [keysSortedVals_iff]
      intro p hp
      exact keysSorted_sortVals_mem kvs p (mem_sortObjPairs.mp hp)

/-- Array case of `keysSorted_sortJson`. -/
theorem keysSorted_sortArr : (xs : JsonArr) → keysSortedArr (sortArr xs) = true
  | .nil => rfl
  | .cons h t => by
      simp [sortArr, keysSortedArr, keysSorted_sortJson h, keysSorted_sortArr t]

/-- Values case of `keysSorted_sortJson`. -/
theorem keysSorted_sortVals_mem : (kvs : JsonObj) → (p : String × Json) →
    p ∈ (sortVals kvs).toList → keysSortedJson p.2 = true
  | .nil, p, hp => by simp [sortVals, JsonObj.toList] at hp
  | .cons k v t, p, hp => by
      rcases List.mem_cons.mp (by simpa [sortVals, JsonObj.toList] using hp) with h | h
      · rw [h]
        exact keysSorted_sortJson v
      · exact keysSorted_sortVals_mem t p h

end

/-! ### C3 -/

/-- C3: the ETag is the double-quoted first 16 hex characters of the
SHA-256 of the UTF-8 bytes of the canonical serialization, and that
canonical serialization writes every object level with its keys in
sorted order. -/
theorem C3_fingerprint (d : Json) :
    calculate_etag d =
      String.mk ('"' :: (sha256HexChars (utf8Encode (dumpsJson (sortJson d)))).take 16 ++ ['"']) ∧
    keysSortedJson (sortJson d) = true :=
  ⟨rfl, keysSorted_sortJson d⟩

/-! ### Permutation facts for the canonical sort -/

/-- Pointwise-equivalent object levels list the same keys. -/
theorem JObjEquiv_keys : ∀ {o1 o2 : JsonObj}, JObjEquiv o1 o2 → o1.keys = o2.keys
  | _, _, .nil => rfl
  | _, _, .cons k _ ht => by
      simp only [JsonObj.keys]
      rw [JObjEquiv_keys ht]

/-- Keys are the first components of the entry list. -/
theorem keys_eq_map : ∀ o : JsonObj, o.keys = o.toList.map Prod.fst
  | .nil => rfl
  | .cons k v t => by simp [JsonObj.keys, JsonObj.toList, keys_eq_map t]

/-- Value-sorting maps the entry list pointwise. -/
theorem toList_sortVals : ∀ o : JsonObj,
    (sortVals o).toList = o.toList.map fun p => (p.1, sortJson p.2)
  | .nil => rfl
  | .cons k v t => by simp [sortVals, JsonObj.toList, toList_sortVals t]

/-- Two permuted entry lists with duplicate-free keys have the same
insertion sort: both sorts are sorted permutations of a common list, and
key-distinctness upgrades the sortedness to a strict, antisymmetric
order. -/
theorem insertionSort_eq_of_perm {l1 l2 : List (String × Json)} (hp : l1.Perm l2)
    (hnd : (l1.map Prod.fst).Nodup) :
    List.insertionSort keyLE l1 = List.insertionSort keyLE l2 := by
  haveI : IsTotal (String × Json) keyLE := ⟨fun a b => natListLe_total _ _⟩
  haveI : IsTrans (String × Json) keyLE := ⟨fun a b c => natListLe_trans _ _ _⟩
  haveI : IsAntisymm (String × Json) (fun p q : String × Json => keyLE p q ∧ p.1 ≠ q.1) :=
    ⟨fun a b h1 h2 => absurd (strLeB_antisymm h1.1 h2.1) h1.2⟩
  have p1 := List.perm_insertionSort keyLE l1
  have p2 := List.perm_insertionSort keyLE l2
  have hperm : (List.insertionSort keyLE l1).Perm (List.insertionSort keyLE l2) :=
    p1.trans (hp.trans p2.symm)
  have strict : ∀ l : List (String × Json), (l.map Prod.fst).Nodup →
      List.Sorted keyLE l → List.Sorted (fun p q : String × Json => keyLE p q ∧ p.1 ≠ q.1) l := by
    intro l hl hs
    have hne : List.Pairwise (fun p q : String × Json => p.1 ≠ q.1) l :=
      List.pairwise_map.mp hl
    exact hs.and hne
  have nd1 : ((List.insertionSort keyLE l1).map Prod.fst).Nodup :=
    ((p1.map Prod.fst).nodup_iff).mpr hnd
  have nd2 : ((List.insertionSort keyLE l2).map Prod.fst).Nodup :=
    ((p2.map Prod.fst).nodup_iff).mpr (((hp.map Prod.fst).nodup_iff).mp hnd)
  exact List.eq_of_perm_of_sorted hperm
    (strict _ nd1 (List.sorted_insertionSort keyLE l1))
    (strict _ nd2 (List.sorted_insertionSort keyLE l2))

mutual

/-- Values equal as mappings (with duplicate-free keys on the left)
have identical canonical forms. -/
theorem sortJson_equiv : (a b : Json) → JEquiv a b → nodupKeysJson a = true →
    sortJson a = sortJson b
  | _, _, .null, _ => rfl
  | _, _, .bool _, _ => rfl
  | _, _, .int _, _ => rfl
  | _, _, .str _, _ => rfl
  | _, _, .arr h, hn => by
      simp only [sortJson]
      exact congrArg Json.arr (sortArr_equiv _ _ h hn)
  | _, _, @JEquiv.obj kvs mid kvs2 ho hp, hn => by
      have hn2 : (decide kvs.keys.Nodup && nodupKeysVals kvs) = true := hn
      simp only [Bool.and_eq_true] at hn2
      obtain ⟨hkn, hvn⟩ := hn2
      have hkeysnd : kvs.keys.Nodup := of_decide_eq_true hkn
      have hkeq : kvs.keys = mid.keys := JObjEquiv_keys ho
      have h1 : sortVals kvs = sortVals mid := sortVals_equiv _ _ ho hvn
      have hperm : ((sortVals mid).toList).Perm ((sortVals kvs2).toList) := by
        rw [toList_sortVals, toList_sortVals]
        exact hp.map _
      have hnd : ((sortVals mid).toList.map Prod.fst).Nodup := by
        rw [toList_sortVals, List.map_map]
        show (mid.toList.map Prod.fst).Nodup
        rw [← keys_eq_map, ← hkeq]
        exact hkeysnd
      have h2 : sortObjPairs (sortVals mid) = sortObjPairs (sortVals kvs2) := by
        unfold sortObjPairs
        rw [insertionSort_eq_of_perm hperm hnd]
      simp only [sortJson]
      rw [h1, h2]

/-- Array case of `sortJson_equiv`. -/
theorem sortArr_equiv : (xs ys : JsonArr) → JArrEquiv xs ys → nodupKeysArr xs = true →
    sortArr xs = sortArr ys
  | _, _, .nil, _ => rfl
  | _, _, .cons hh ht, hn => by
      have hn2 : (nodupKeysJson _ && nodupKeysArr _) = true := hn
      simp only [Bool.and_eq_true] at hn2
      obtain ⟨h1, h2⟩ := hn2
      simp only [sortArr]
      rw [sortJson_equiv _ _ hh h1, sortArr_equiv _ _ ht h2]

/-- Entry-values case of `sortJson_equiv`. -/
theorem sortVals_equiv : (o1 o2 : JsonObj) → JObjEquiv o1 o2 → nodupKeysVals o1 = true →
    sortVals o1 = sortVals o2
  | _, _, .nil, _ => rfl
  | _, _, .cons k hv ht, hn => by
      have hn2 : (nodupKeysJson _ && nodupKeysVals _) = true := hn
      simp only [Bool.and_eq_true] at hn2
      obtain ⟨h1, h2⟩ := hn2
      simp only [sortVals]
      rw [sortJson_equiv _ _ hv h1, sortVals_equiv _ _ ht h2]

end

/-! ### C4 -/

/-- C4: two payloads that are equal as mappings — same keys mapped to
equal values at every nesting level, in any key insertion order — yield
the same ETag, provided the payload has duplicate-free keys as every
Python dict does. -/
theorem C4_fingerprint_stability {a b : Json} (he : JEquiv a b)
    (hn : nodupKeysJson a = true) : calculate_etag a = calculate_etag b := by
  unfold calculate_etag pyJsonDumpsSorted
  rw [sortJson_equiv a b he hn]

/-- Witness for C4 on the claim's example pair. -/
theorem C4_fingerprint_stability_witness :
    nodupKeysJson pairPayloadA = true ∧
    calculate_etag pairPayloadA = calculate_etag pairPayloadB ∧
    calculate_etag pairPayloadA = "\"d8497d9d82770a70\"" := by
  have he : JEquiv pairPayloadA pairPayloadB :=
    JEquiv.obj
      (JObjEquiv.cons "a" (JEquiv.int 1) (JObjEquiv.cons "b" (JEquiv.int 2) JObjEquiv.nil))
      (List.Perm.swap ("b", Json.int 2) ("a", Json.int 1) [])
  exact ⟨by decide, C4_fingerprint_stability he (by decide), by decide⟩

/-! ### Bind inversion and lookup facts for the transformer proofs -/

/-- Inversion of a successful `Except` bind. -/
theorem exceptBind_ok {α β : Type} {x : Except PyErr α} {f : α → Except PyErr β} {b : β}
    (h : (x >>= f) = Except.ok b) : ∃ a, x = Except.ok a ∧ f a = Except.ok b := by
  cases x with
  | error e => exact absurd h (by simp [Bind.bind, Except.bind])
  | ok a => exact ⟨a, rfl, h⟩

/-- Round trip of the array element list. -/
theorem arrToList_ofList : ∀ l : List Json, (JsonArr.ofList l).toList = l
  | [] => rfl
  | h :: t => by simp [JsonArr.ofList, JsonArr.toList, arrToList_ofList t]

/-- Setting one key leaves the lookup of a different key unchanged. -/
theorem lookup_pyDictSet_ne : ∀ (o : JsonObj) (k : String) (v : Json) (key : String),
    k ≠ key → (pyDictSet o k v).lookup key = o.lookup key
  | .nil, k, v, key, hk => by simp [pyDictSet, JsonObj.lookup, hk]
  | .cons k0 v0 t, k, v, key, hk => by
      by_cases h0 : k0 = k
      · subst h0
        simp [pyDictSet, JsonObj.lookup, hk]
      · simp only [pyDictSet, if_neg h0, JsonObj.lookup]
        by_cases h1 : k0 = key
        · simp [h1]
        · simp [h1, lookup_pyDictSet_ne t k v key hk]

/-- Setting an unrelated key preserves id-consistency of a game dict. -/
theorem gameIdConsistent_pyDictSet (o : JsonObj) (k : String) (v : Json)
    (h1 : k ≠ "nba_game_id") (h2 : k ≠ "id") :
    gameIdConsistent (.obj (pyDictSet o k v)) = gameIdConsistent (.obj o) := by
  simp only [gameIdConsistent, lookup_pyDictSet_ne o k v _ h1, lookup_pyDictSet_ne o k v _ h2]

/-- A game built by the live branch is id-consistent. -/
theorem buildLiveGame_consistent (pd : Json → Option String) (g : Json) (nid : String)
    (game : Json) (hnid : nid ≠ "") (hb : buildLiveGame pd g nid = Except.ok game) :
    gameIdConsistent game = true := by
  simp only [buildLiveGame] at hb
  obtain ⟨uuid, h1, hb⟩ := exceptBind_ok hb
  obtain ⟨t, _, hb⟩ := exceptBind_ok hb
  obtain ⟨code, _, hb⟩ := exceptBind_ok hb
  obtain ⟨per, _, hb⟩ := exceptBind_ok hb
  obtain ⟨clk, _, hb⟩ := exceptBind_ok hb
  obtain ⟨status, _, hb⟩ := exceptBind_ok hb
  obtain ⟨home, _, hb⟩ := exceptBind_ok hb
  obtain ⟨away, _, hb⟩ := exceptBind_ok hb
  obtain ⟨homeObj, _, hb⟩ := exceptBind_ok hb
  obtain ⟨awayObj, _, hb⟩ := exceptBind_ok hb
  obtain ⟨et, _, hb⟩ := exceptBind_ok hb
  obtain ⟨utc, _, hb⟩ := exceptBind_ok hb
  have hgame : game = _ := (Except.ok.inj hb).symm
  subst hgame
  repeat' split
  all_goals
    simp [gameIdConsistent_pyDictSet, gameIdConsistent, JsonObj.lookup, h1, hnid]

/-- A game built by the stats branch is id-consistent. -/
theorem buildStatsGame_consistent (pd : Json → Option String) (data : Json) (nid : String)
    (de tx : Json) (hid vid : Option String) (game : Json) (hnid : nid ≠ "")
    (hb : buildStatsGame pd data nid de tx hid vid = Except.ok game) :
    gameIdConsistent game = true := by
  simp only [buildStatsGame] at hb
  obtain ⟨uuid, h1, hb⟩ := exceptBind_ok hb
  obtain ⟨status, _, hb⟩ := exceptBind_ok hb
  obtain ⟨teams, _, hb⟩ := exceptBind_ok hb
  have hgame : game = _ := (Except.ok.inj hb).symm
  subst hgame
  repeat' split
  all_goals
    simp [gameIdConsistent_pyDictSet, gameIdConsistent, JsonObj.lookup, h1, hnid]

/-- Every game the live loop emits is id-consistent. -/
theorem procLiveGames_consistent (pd : Json → Option String) :
    ∀ (gl : List Json) (res : List Json), procLiveGames pd gl = Except.ok res →
      ∀ g ∈ res, gameIdConsistent g = true
  | [], res, h, g, hg => by
      simp only [procLiveGames] at h
      cases Except.ok.inj h
      simp at hg
  | e :: rest, res, h, g, hg => by
      simp only [procLiveGames] at h
      obtain ⟨gid, h1, h⟩ := exceptBind_ok h
      by_cases h2 : pyStr gid = ""
      · rw [if_pos h2] at h
        exact procLiveGames_consistent pd rest res h g hg
      · rw [if_neg h2] at h
        obtain ⟨game1, hbg, h⟩ := exceptBind_ok h
        obtain ⟨tail, htail, h⟩ := exceptBind_ok h
        cases Except.ok.inj h
        rcases List.mem_cons.mp hg with hg1 | hg1
        · subst hg1
          exact buildLiveGame_consistent pd e _ g h2 hbg
        · exact procLiveGames_consistent pd rest tail htail g hg1

/-- Every game the stats loop emits is id-consistent. -/
theorem procStatsRows_consistent (pd : Json → Option String) (data : Json) :
    ∀ (rows : List Json) (res : List Json), procStatsRows pd data rows = Except.ok res →
      ∀ g ∈ res, gameIdConsistent g = true
  | [], res, h, g, hg => by
      simp only [procStatsRows] at h
      cases Except.ok.inj h
      simp at hg
  | row :: rest, res, h, g, hg => by
      simp only [procStatsRows] at h
      obtain ⟨len, _, h⟩ := exceptBind_ok h
      obtain ⟨nidOpt, _, h⟩ := exceptBind_ok h
      obtain ⟨de, _, h⟩ := exceptBind_ok h
      obtain ⟨tx, _, h⟩ := exceptBind_ok h
      obtain ⟨hid, _, h⟩ := exceptBind_ok h
      obtain ⟨vid, _, h⟩ := exceptBind_ok h
      cases nidOpt with
      | none => exact procStatsRows_consistent pd data rest res h g hg
      | some nid =>
          dsimp only at h
          by_cases h2 : nid = ""
          · rw [if_pos h2] at h
            exact procStatsRows_consistent pd data rest res h g hg
          · rw [if_neg h2] at h
            obtain ⟨game1, hbg, h⟩ := exceptBind_ok h
            obtain ⟨tail, htail, h⟩ := exceptBind_ok h
            cases Except.ok.inj h
            rcases List.mem_cons.mp hg with hg1 | hg1
            · subst hg1
              exact buildStatsGame_consistent pd data _ de tx hid vid g h2 hbg
            · exact procStatsRows_consistent pd data rest tail htail g hg1

/-- Every game in a successful schedule transform is id-consistent. -/
theorem transform_games_consistent (pd : Json → Option String) (data date res : Json)
    (h : transform_scoreboard_to_schedule pd data date = Except.ok res) :
    ∀ g ∈ gamesOf res, gameIdConsistent g = true := by
  simp only [transform_scoreboard_to_schedule] at h
  obtain ⟨live, _, h⟩ := exceptBind_ok h
  cases live with
  | true =>
      rw [if_pos rfl] at h
      obtain ⟨sb, _, h⟩ := exceptBind_ok h
      obtain ⟨gd, _, h⟩ := exceptBind_ok h
      obtain ⟨date2, _, h⟩ := exceptBind_ok h
      obtain ⟨gamesJ, _, h⟩ := exceptBind_ok h
      obtain ⟨gList, _, h⟩ := exceptBind_ok h
      obtain ⟨games, hgames, h⟩ := exceptBind_ok h
      cases Except.ok.inj h
      intro g hg
      refine procLiveGames_consistent pd gList games hgames g ?_
      simpa [gamesOf, JsonObj.lookup, arrToList_ofList] using hg
  | false =>
      rw [if_neg (by simp)] at h
      obtain ⟨hasRS, _, h⟩ := exceptBind_ok h
      cases hasRS with
      | true =>
          rw [if_pos rfl] at h
          obtain ⟨result_sets, _, h⟩ := exceptBind_ok h
          obtain ⟨rsList, _, h⟩ := exceptBind_ok h
          obtain ⟨gh, _, h⟩ := exceptBind_ok h
          cases gh with
          | none =>
              cases Except.ok.inj h
              intro g hg
              simp [gamesOf, defaultSchedule, JsonObj.lookup, JsonArr.toList] at hg
          | some rows =>
              dsimp only at h
              by_cases hr : pyTruthy rows = true
              · rw [if_pos hr] at h
                obtain ⟨rowList, _, h⟩ := exceptBind_ok h
                obtain ⟨games, hgames, h⟩ := exceptBind_ok h
                cases Except.ok.inj h
                intro g hg
                refine procStatsRows_consistent pd data rowList games hgames g ?_
                simpa [gamesOf, JsonObj.lookup, arrToList_ofList] using hg
              · rw [if_neg hr] at h
                cases Except.ok.inj h
                intro g hg
                simp [gamesOf, defaultSchedule, JsonObj.lookup, JsonArr.toList] at hg
      | false =>
          rw [if_neg (by simp)] at h
          obtain ⟨ks, _, h⟩ := exceptBind_ok h
          cases Except.ok.inj h
          intro g hg
          simp [gamesOf, defaultSchedule, JsonObj.lookup, JsonArr.toList] at hg

/-! ### C10 -/

/-- C10 counterexample: a live entry whose `gameId` is JSON null — a
missing game id — is not skipped: `str(None)` is `"None"`, which passes
the emptiness guard, so the transformer emits a game whose
`nba_game_id` is the literal string `"None"`. -/
theorem C10_counterexample :
    (transform_scoreboard_to_schedule (fun _ => none) nullGameIdScoreboard
        (.str "2025-01-08")).map
      (fun r => (gamesOf r).map fun g =>
        match g with
        | .obj kvs => kvs.lookup "nba_game_id"
        | _ => none) =
    Except.ok [some (Json.str "None")] := by
  decide

/-- C10 amended: every game a successful schedule transform emits
carries a non-empty `nba_game_id` string together with an `id` equal to
the mapper's UUID of that string; a live entry whose `gameId` key is
absent or maps to the empty string is skipped (contributes no game) —
but an entry whose `gameId` is JSON null is emitted, stringified to
`"None"`. -/
theorem C10_emitted_game_ids :
    (∀ (pd : Json → Option String) (data date res : Json),
      transform_scoreboard_to_schedule pd data date = Except.ok res →
      ∀ g ∈ gamesOf res, gameIdConsistent g = true) ∧
    (∀ (pd : Json → Option String) (date : Json) (ekvs : JsonObj),
      (ekvs.lookup "gameId" = none ∨ ekvs.lookup "gameId" = some (.str "")) →
      transform_scoreboard_to_schedule pd (liveSingleGame ekvs) date =
        Except.ok (defaultSchedule date)) := by
  constructor
  · exact transform_games_consistent
  · intro pd date ekvs hlook
    rcases hlook with hl | hl <;>
      simp [transform_scoreboard_to_schedule, scoreboardGuard, liveSingleGame, pyInJson,
        JsonObj.hasKey, JsonObj.lookup, pySubscript, pyGet, pyTruthy, pyIterList, liveDate,
        JsonArr.toList, procLiveGames, hl, pyStr, defaultSchedule, JsonArr.ofList,
        bind, Except.bind, pure, Except.pure, Functor.map, Except.map]

/-- Witness for C10: the empty entry is skipped and the transform
returns the empty schedule. -/
theorem C10_emitted_game_ids_witness :
    transform_scoreboard_to_schedule (fun _ => none) (liveSingleGame .nil)
        (.str "2025-01-08") =
      Except.ok (defaultSchedule (.str "2025-01-08")) :=
  C10_emitted_game_ids.2 (fun _ => none) (.str "2025-01-08") .nil (Or.inl rfl)

end NBA
